import Mathlib

/-!
Verification of the animation-graph runtime of the `vulkanized` repository.

The development shallowly embeds the code of `src/renderer/anim_graph.c`,
`src/renderer/anim_blend.c`, `src/renderer/anim_blend_space.c`,
`src/renderer/animation.c` and `src/core/arena.c`.

Modelling conventions:
* 32-bit floats (`f32`) are modelled by the elements of a linear
  ordered field `F`; arithmetic is exact and decimal literals such as
  `1e-6f` are taken at their decimal value.  Definitions that do not
  involve transcendental library calls are kept generic in `F`
  (instantiated at `ℚ` for executable witnesses); the pose algebra and
  the update pipeline, which call the trigonometric slerp of the cglm
  dependency, are stated over `ℝ`.
* C arrays with an explicit element count are modelled by `List`
  (builder-filled arrays) or by total functions out of `ℕ`
  (fixed-size storage); reads that C performs without a bound check use
  `List.getD` with a default element.
* The scratch arena of `src/core/arena.c` is a bump allocator over a
  byte capacity.  Every allocation made during an update has a size
  that is a multiple of its alignment and the offset starts at 0, so
  the align-up step of `arena_alloc` never changes the offset and is
  omitted.
* The C union used for parameter values and parameter defaults is
  modelled as a record carrying both interpretations; no code path of
  the claims reinterprets one variant as the other.
* Event callbacks are side effects; the model returns the trace of
  callback invocations `(event_id, name)` in invocation order.
-/

/- ================================================================
   Scalar helpers: C `fmodf` (exact-arithmetic model).
   `fmodf` truncates the quotient toward zero and gives the result the
   sign of the dividend.
   ================================================================ -/

/-- Truncation of a field element toward zero, as C float-to-int
conversion and `fmodf` do. -/
def fTrunc {F : Type} [LinearOrderedField F] [FloorRing F] (x : F) : ℤ :=
  if 0 ≤ x then ⌊x⌋ else -⌊-x⌋

/-- Model of C `fmodf x y` in exact arithmetic:
`x - y * trunc (x / y)`. -/
def fmodf {F : Type} [LinearOrderedField F] [FloorRing F] (x y : F) : F :=
  x - y * (fTrunc (x / y) : F)

/- ================================================================
   Data model: vectors, quaternions, poses, skeletons, clips
   (`src/renderer/animation_types.h`).
   ================================================================ -/

/-- A 4x4 matrix of scalars (cglm `mat4`; stored column-major in C,
modelled here with mathematical row/column indexing). -/
abbrev Mat4 (F : Type) := Matrix (Fin 4) (Fin 4) F

/-- A 3-component vector (`f32[3]`). -/
structure Vec3 (F : Type) where
  x : F
  y : F
  z : F
deriving DecidableEq

/-- A quaternion in xyzw component order (`f32[4]`). -/
structure Quat (F : Type) where
  x : F
  y : F
  z : F
  w : F
deriving DecidableEq

/-- The all-zero vector (content of freshly `memset` arena memory). -/
def zeroVec3 {F : Type} [LinearOrderedField F] : Vec3 F := ⟨0, 0, 0⟩

/-- The all-zero quaternion (content of freshly `memset` arena memory). -/
def zeroQuat {F : Type} [LinearOrderedField F] : Quat F := ⟨0, 0, 0, 0⟩

instance {F : Type} [LinearOrderedField F] : Inhabited (Vec3 F) := ⟨zeroVec3⟩

instance {F : Type} [LinearOrderedField F] : Inhabited (Quat F) := ⟨zeroQuat⟩

/-- `AnimInterpolation` of `animation_types.h`. -/
inductive AnimInterpolation where
  | step
  | linear
  | cubicspline
deriving DecidableEq

/-- `AnimPathType` of `animation_types.h`. -/
inductive AnimPathType where
  | translation
  | rotation
  | scale
deriving DecidableEq

/-- `AnimChannel`: keyframes of one property of one joint.
`timestamps` has `keyframe_count` entries; `values` is the flat float
array whose layout depends on the interpolation mode. -/
structure AnimChannel (F : Type) where
  target_joint : ℕ
  path : AnimPathType
  interpolation : AnimInterpolation
  timestamps : List F
  values : List F
  keyframe_count : ℕ

/-- `AnimClip` of `animation_types.h`. -/
structure AnimClip (F : Type) where
  name : String
  duration : F
  channels : List (AnimChannel F)

instance {F : Type} [LinearOrderedField F] : Inhabited (AnimClip F) :=
  ⟨⟨"", 0, []⟩⟩

/-- `Skeleton` of `animation_types.h`.  Fixed-size per-joint arrays are
modelled as total functions out of the joint index. -/
structure Skeleton (F : Type) where
  joint_count : ℕ
  parent_indices : ℕ → ℤ
  inverse_bind_matrices : ℕ → Mat4 F
  rest_translations : ℕ → Vec3 F
  rest_rotations : ℕ → Quat F
  rest_scales : ℕ → Vec3 F
  root_transform : Mat4 F

/-- `SkinnedModel` of `animation_types.h` (the mesh handle is
irrelevant to the animation graph and omitted).  `clip_count` is the
length of `clips`. -/
structure SkinnedModel (F : Type) where
  skeleton : Skeleton F
  clips : List (AnimClip F)

/-- `AnimPose` of `animation_types.h`: local TRS per joint. -/
structure AnimPose (F : Type) where
  translations : ℕ → Vec3 F
  rotations : ℕ → Quat F
  scales : ℕ → Vec3 F

/-- The content of a freshly arena-allocated pose: `arena_alloc`
zeroes every allocation. -/
def zeroPose {F : Type} [LinearOrderedField F] : AnimPose F :=
  ⟨fun _ => zeroVec3, fun _ => zeroQuat, fun _ => zeroVec3⟩

/- ================================================================
   Data model: the animation graph (`src/renderer/anim_graph_types.h`).
   ================================================================ -/

/-- `ANIM_MAX_PARAMS` of `anim_graph_types.h`. -/
def ANIM_MAX_PARAMS : ℕ := 16

/-- `ANIM_MAX_STATES_PER_LAYER` of `anim_graph_types.h`. -/
def ANIM_MAX_STATES_PER_LAYER : ℕ := 16

/-- `ANIM_BLEND1D_MAX_CLIPS` of `anim_graph_types.h`. -/
def ANIM_BLEND1D_MAX_CLIPS : ℕ := 8

/-- `ANIM_BLEND2D_MAX_CLIPS` of `anim_graph_types.h`. -/
def ANIM_BLEND2D_MAX_CLIPS : ℕ := 16

/-- `BoneMask` of `anim_graph_types.h`. -/
structure BoneMask (F : Type) where
  weights : ℕ → F
  joint_count : ℕ

/-- `AnimEvent` of `anim_graph_types.h`. -/
structure AnimEvent (F : Type) where
  time : F
  event_id : ℕ
  name : String
deriving DecidableEq

/-- `AnimEventList` of `anim_graph_types.h` (`event_count` is the
length of `events`). -/
structure AnimEventList (F : Type) where
  events : List (AnimEvent F)
deriving DecidableEq

/-- One slot of the runtime parameter array.  The C storage is a union
of `f32` and `bool`; both interpretations are carried side by side. -/
structure AnimParamValue (F : Type) where
  f : F
  b : Bool
deriving DecidableEq

/-- `AnimParamValues`: flat runtime parameter storage, 16 slots in C,
modelled as a total function. -/
structure AnimParamValues (F : Type) where
  values : ℕ → AnimParamValue F

/-- `AnimParamType` of `anim_graph_types.h`. -/
inductive AnimParamType where
  | float
  | bool
deriving DecidableEq

/-- `AnimParamDef`: a named parameter with its default value (the C
default is a union, modelled as both fields). -/
structure AnimParamDef (F : Type) where
  name : String
  type : AnimParamType
  default_f : F
  default_b : Bool

/-- `AnimConditionType` of `anim_graph_types.h`. -/
inductive AnimConditionType where
  | float_gt
  | float_lt
  | float_ge
  | float_le
  | bool_true
  | bool_false
  | callback
deriving DecidableEq

/-- `AnimCondition`.  The C callback is a function pointer plus a
`user_data` pointer; the model folds the data into a closure and uses
`none` for a NULL pointer. -/
structure AnimCondition (F : Type) where
  type : AnimConditionType
  param_index : ℕ
  threshold : F
  callback : Option (AnimParamValues F → Bool)

/-- `AnimTransition` (`condition_count` is the length of
`conditions`). -/
structure AnimTransition (F : Type) where
  source_state : ℕ
  target_state : ℕ
  duration : F
  conditions : List (AnimCondition F)
  has_exit_time : Bool
  exit_time : F

/-- `BlendSpace1DEntry` of `anim_graph_types.h`. -/
structure BlendSpace1DEntry (F : Type) where
  position : F
  clip_index : ℕ
deriving DecidableEq

instance {F : Type} [LinearOrderedField F] : Inhabited (BlendSpace1DEntry F) :=
  ⟨⟨0, 0⟩⟩

/-- `BlendSpace1D` (`entry_count` is the length of `entries`). -/
structure BlendSpace1D (F : Type) where
  entries : List (BlendSpace1DEntry F)
  param_index : ℕ
deriving DecidableEq

/-- `BlendSpace2DEntry` of `anim_graph_types.h`. -/
structure BlendSpace2DEntry (F : Type) where
  position_x : F
  position_y : F
  clip_index : ℕ
deriving DecidableEq

instance {F : Type} [LinearOrderedField F] : Inhabited (BlendSpace2DEntry F) :=
  ⟨⟨0, 0, 0⟩⟩

/-- `BlendSpace2D` (`entry_count` is the length of `entries`). -/
structure BlendSpace2D (F : Type) where
  entries : List (BlendSpace2DEntry F)
  param_x_index : ℕ
  param_y_index : ℕ
deriving DecidableEq

/-- The tagged-union payload of `AnimStateNode.data`. -/
inductive AnimStateData (F : Type) where
  | clip (clip_index : ℕ)
  | blend1d (bs : BlendSpace1D F)
  | blend2d (bs : BlendSpace2D F)

/-- `AnimStateNode` of `anim_graph_types.h`. -/
structure AnimStateNode (F : Type) where
  name : String
  data : AnimStateData F
  speed : F
  looping : Bool
  events : Option (AnimEventList F)

instance {F : Type} [LinearOrderedField F] : Inhabited (AnimStateNode F) :=
  ⟨⟨"", .clip 0, 0, false, none⟩⟩

/-- `AnimLayerBlendMode` of `anim_graph_types.h`. -/
inductive AnimLayerBlendMode where
  | override
  | additive
deriving DecidableEq

/-- `AnimLayerDef` of `anim_graph_types.h` (`state_count` and
`transition_count` are list lengths). -/
structure AnimLayerDef (F : Type) where
  name : String
  states : List (AnimStateNode F)
  transitions : List (AnimTransition F)
  default_state : ℕ
  bone_mask : Option (BoneMask F)
  weight : F
  blend_mode : AnimLayerBlendMode

instance {F : Type} [LinearOrderedField F] : Inhabited (AnimLayerDef F) :=
  ⟨⟨"", [], [], 0, none, 0, .override⟩⟩

/-- `AnimGraphDef` of `anim_graph_types.h` (`param_count` and
`layer_count` are list lengths). -/
structure AnimGraphDef (F : Type) where
  params : List (AnimParamDef F)
  layers : List (AnimLayerDef F)

/-- `AnimLayerState`: per-entity per-layer runtime state. -/
structure AnimLayerState (F : Type) where
  current_state : ℕ
  state_time : F
  state_normalized : F
  transitioning : Bool
  prev_state : ℕ
  prev_state_time : F
  transition_elapsed : F
  transition_duration : F
  prev_event_time : F

instance {F : Type} [LinearOrderedField F] : Inhabited (AnimLayerState F) :=
  ⟨⟨0, 0, 0, false, 0, 0, 0, 0, 0⟩⟩

/-- `AnimGraphInstance` of `anim_graph_types.h`.  The C field `def`
(the non-owning reference to the definition) is renamed `graph`
because `def` is a Lean keyword.  The event callback is modelled by
its presence bit; invocations are returned as a trace. -/
structure AnimGraphInstance (F : Type) where
  graph : AnimGraphDef F
  params : AnimParamValues F
  layer_states : ℕ → AnimLayerState F
  event_callback : Bool
  joint_matrices : ℕ → Mat4 F
  joint_count : ℕ

/- ================================================================
   Scratch arena (`src/core/arena.c`).
   ================================================================ -/

/-- `Arena` of `src/core/arena.h`: a bump allocator over a fixed
capacity (the backing pointer is irrelevant to the model). -/
structure Arena where
  capacity : ℕ
  offset : ℕ
deriving DecidableEq

/-- `arena_alloc`: returns whether the allocation succeeded together
with the updated arena.  All allocation sizes of the update path are
multiples of their alignment and the offset starts aligned, so the
align-up of the C code is the identity and is omitted. -/
def arena_alloc (a : Arena) (size : ℕ) : Bool × Arena :=
  if a.offset + size ≤ a.capacity then
    (true, ⟨a.capacity, a.offset + size⟩)
  else
    (false, a)

/-- `sizeof(AnimPose)` for `MAX_JOINTS = 128`:
128 * (3 + 4 + 3) * 4 bytes. -/
def sizeofAnimPose : ℕ := 5120

/-- `sizeof(mat4)`: 16 floats. -/
def sizeofMat4 : ℕ := 64

/- ================================================================
   `anim_graph.c`: parameters and builder pieces.
   ================================================================ -/

/-- Model of `strncpy(dst, src, ANIM_PARAM_NAME_LEN - 1)` into a
zeroed 32-byte buffer: keeps at most 31 characters. -/
def strncpy31 (s : String) : String := ⟨s.data.take 31⟩

/-- `anim_graph_def_find_param`: index of the first parameter whose
stored name equals `name`, or `-1`. -/
def anim_graph_def_find_param {F : Type} (g : AnimGraphDef F) (name : String) : ℤ :=
  match g.params.findIdx? (fun p => p.name == name) with
  | some i => (i : ℤ)
  | none => -1

/-- `anim_graph_set_param_float`: guarded only by
`param_index < ANIM_MAX_PARAMS`. -/
def anim_graph_set_param_float {F : Type} (inst : AnimGraphInstance F)
    (param_index : ℕ) (value : F) : AnimGraphInstance F :=
  if param_index < ANIM_MAX_PARAMS then
    { inst with params := ⟨fun j => if j = param_index then
        { inst.params.values j with f := value } else inst.params.values j⟩ }
  else inst

/-- `anim_graph_set_param_bool`: guarded only by
`param_index < ANIM_MAX_PARAMS`. -/
def anim_graph_set_param_bool {F : Type} (inst : AnimGraphInstance F)
    (param_index : ℕ) (value : Bool) : AnimGraphInstance F :=
  if param_index < ANIM_MAX_PARAMS then
    { inst with params := ⟨fun j => if j = param_index then
        { inst.params.values j with b := value } else inst.params.values j⟩ }
  else inst

/-- `anim_graph_set_param_float_by_name`. -/
def anim_graph_set_param_float_by_name {F : Type} (inst : AnimGraphInstance F)
    (name : String) (value : F) : AnimGraphInstance F :=
  let idx := anim_graph_def_find_param inst.graph name
  if 0 ≤ idx then
    { inst with params := ⟨fun j => if j = idx.toNat then
        { inst.params.values j with f := value } else inst.params.values j⟩ }
  else inst

/-- `anim_graph_set_param_bool_by_name`. -/
def anim_graph_set_param_bool_by_name {F : Type} (inst : AnimGraphInstance F)
    (name : String) (value : Bool) : AnimGraphInstance F :=
  let idx := anim_graph_def_find_param inst.graph name
  if 0 ≤ idx then
    { inst with params := ⟨fun j => if j = idx.toNat then
        { inst.params.values j with b := value } else inst.params.values j⟩ }
  else inst

/-- The insertion step of the insertion sort in
`anim_graph_def_add_state_blend1d`: the C loop shifts entries right
while the predecessor has a strictly greater position, so an inserted
entry lands after all entries with a position less than or equal to
its own. -/
def insert_by_position {F : Type} [LinearOrderedField F]
    (x : BlendSpace1DEntry F) : List (BlendSpace1DEntry F) → List (BlendSpace1DEntry F)
  | [] => [x]
  | b :: l => if b.position ≤ x.position then b :: insert_by_position x l else x :: b :: l

/-- The insertion sort on blend-space entries performed by
`anim_graph_def_add_state_blend1d` (stable, ascending by position). -/
def sort_entries_1d {F : Type} [LinearOrderedField F]
    (l : List (BlendSpace1DEntry F)) : List (BlendSpace1DEntry F) :=
  l.foldl (fun acc x => insert_by_position x acc) []

/-- `anim_graph_def_add_state_blend1d`: appends a 1-D blend state,
truncating the entry count at `ANIM_BLEND1D_MAX_CLIPS` and sorting the
copied entries by position; returns the new definition and the state
index (`-1` on an invalid layer or a full state array). -/
def anim_graph_def_add_state_blend1d {F : Type} [LinearOrderedField F]
    (g : AnimGraphDef F) (layer_index : ℕ) (name : String)
    (entries : List (BlendSpace1DEntry F)) (entry_count : ℕ)
    (param_index : ℕ) (speed : F) (looping : Bool) : AnimGraphDef F × ℤ :=
  if layer_index < g.layers.length then
    let layer := g.layers.getD layer_index default
    if layer.states.length < ANIM_MAX_STATES_PER_LAYER then
      let ec := if ANIM_BLEND1D_MAX_CLIPS < entry_count then ANIM_BLEND1D_MAX_CLIPS else entry_count
      let bs : BlendSpace1D F := ⟨sort_entries_1d (entries.take ec), param_index⟩
      let node : AnimStateNode F := ⟨strncpy31 name, .blend1d bs, speed, looping, none⟩
      let layer1 := { layer with states := layer.states ++ [node] }
      ({ g with layers := g.layers.set layer_index layer1 },
       (layer.states.length : ℤ))
    else (g, -1)
  else (g, -1)

/-- `anim_graph_def_add_state_blend2d`: appends a 2-D blend state,
truncating the entry count at `ANIM_BLEND2D_MAX_CLIPS` (entries are
copied unsorted); returns the new definition and the state index. -/
def anim_graph_def_add_state_blend2d {F : Type} [LinearOrderedField F]
    (g : AnimGraphDef F) (layer_index : ℕ) (name : String)
    (entries : List (BlendSpace2DEntry F)) (entry_count : ℕ)
    (param_x_index param_y_index : ℕ) (speed : F) (looping : Bool) :
    AnimGraphDef F × ℤ :=
  if layer_index < g.layers.length then
    let layer := g.layers.getD layer_index default
    if layer.states.length < ANIM_MAX_STATES_PER_LAYER then
      let ec := if ANIM_BLEND2D_MAX_CLIPS < entry_count then ANIM_BLEND2D_MAX_CLIPS else entry_count
      let bs : BlendSpace2D F := ⟨entries.take ec, param_x_index, param_y_index⟩
      let node : AnimStateNode F := ⟨strncpy31 name, .blend2d bs, speed, looping, none⟩
      let layer1 := { layer with states := layer.states ++ [node] }
      ({ g with layers := g.layers.set layer_index layer1 },
       (layer.states.length : ℤ))
    else (g, -1)
  else (g, -1)

/- ================================================================
   `anim_graph.c`: condition and transition evaluation.
   ================================================================ -/

/-- `evaluate_condition` of `anim_graph.c`. -/
def evaluate_condition {F : Type} [LinearOrderedField F]
    (c : AnimCondition F) (params : AnimParamValues F) : Bool :=
  match c.type with
  | .float_gt => decide (c.threshold < (params.values c.param_index).f)
  | .float_lt => decide ((params.values c.param_index).f < c.threshold)
  | .float_ge => decide (c.threshold ≤ (params.values c.param_index).f)
  | .float_le => decide ((params.values c.param_index).f ≤ c.threshold)
  | .bool_true => (params.values c.param_index).b == true
  | .bool_false => (params.values c.param_index).b == false
  | .callback =>
    match c.callback with
    | some cb => cb params
    | none => false

/-- `evaluate_transition` of `anim_graph.c`: the exit-time gate, then
AND over all conditions, then the requirement of at least one
condition. -/
def evaluate_transition {F : Type} [LinearOrderedField F]
    (tr : AnimTransition F) (params : AnimParamValues F)
    (state_normalized_time : F) : Bool :=
  if tr.has_exit_time = true ∧ state_normalized_time < tr.exit_time then
    false
  else
    (tr.conditions.all (fun c => evaluate_condition c params)) &&
      decide (0 < tr.conditions.length)

/- ================================================================
   `anim_graph.c`: state durations and normalized time.
   ================================================================ -/

/-- The repeated C idiom `(d > 1e-6f) ? t / d : 0.0f` guarding the
normalized-time division. -/
def normalized_time {F : Type} [LinearOrderedField F] (t dur : F) : F :=
  if (1 : F) / 1000000 < dur then t / dur else 0

/-- The repeated C idiom
`(ci < model->clip_count) ? model->clips[ci].duration : 1.0f`. -/
def clip_duration_or_one {F : Type} [LinearOrderedField F]
    (model : SkinnedModel F) (ci : ℕ) : F :=
  if ci < model.clips.length then (model.clips.getD ci default).duration else 1

/-- The bracketing-entry search shared by `get_state_duration` and
`blend_space_1d_evaluate`: starting from `lo = 0, hi = 1`, the first
index `i ≥ 1` whose position is at least `p` gives `(i - 1, i)`. -/
def bracket1d {F : Type} [LinearOrderedField F]
    (es : List (BlendSpace1DEntry F)) (p : F) : ℕ × ℕ :=
  match ((List.range es.length).drop 1).find?
      (fun i => decide (p ≤ (es.getD i default).position)) with
  | some i => (i - 1, i)
  | none => (0, 1)

/-- `get_state_duration` of `anim_graph.c`. -/
def get_state_duration {F : Type} [LinearOrderedField F]
    (state : AnimStateNode F) (model : SkinnedModel F)
    (params : AnimParamValues F) : F :=
  match state.data with
  | .clip ci => clip_duration_or_one model ci
  | .blend1d bs =>
    if bs.entries.length = 0 then 1
    else
      let p0 := (params.values bs.param_index).f
      let lo_pos := (bs.entries.getD 0 default).position
      let hi_pos := (bs.entries.getD (bs.entries.length - 1) default).position
      let p1 := if p0 ≤ lo_pos then lo_pos else p0
      let p := if hi_pos ≤ p1 then hi_pos else p1
      if bs.entries.length = 1 then
        clip_duration_or_one model (bs.entries.getD 0 default).clip_index
      else
        let lohi := bracket1d bs.entries p
        let lo := lohi.1
        let hi := lohi.2
        let range := (bs.entries.getD hi default).position - (bs.entries.getD lo default).position
        let factor := if (1 : F) / 1000000 < range then
          (p - (bs.entries.getD lo default).position) / range else 0
        let dur_a := clip_duration_or_one model (bs.entries.getD lo default).clip_index
        let dur_b := clip_duration_or_one model (bs.entries.getD hi default).clip_index
        dur_a * (1 - factor) + dur_b * factor
  | .blend2d bs =>
    if 0 < bs.entries.length then
      clip_duration_or_one model (bs.entries.getD 0 default).clip_index
    else 1

/- ================================================================
   `anim_graph.c`: time advance and event firing.
   ================================================================ -/

/-- The time-advance step of `anim_graph_update` (applied to both the
current and, during a crossfade, the previous state):
`t += dt * speed`, then wrap by `fmodf` plus a negative correction for
a looping state with positive duration, else clamp above at the
duration. -/
def advance_state_time {F : Type} [LinearOrderedField F] [FloorRing F]
    (t delta_time speed : F) (looping : Bool) (duration : F) : F :=
  let t1 := t + delta_time * speed
  if looping = true ∧ 0 < duration then
    let m := fmodf t1 duration
    if m < 0 then m + duration else m
  else
    if duration < t1 then duration else t1

/-- `fire_events` of `anim_graph.c`, returning the trace of callback
invocations in order.  The duration argument is unused by the C code
(`(void)duration`). -/
def fire_events {F : Type} [LinearOrderedField F]
    (events : Option (AnimEventList F)) (callback : Bool)
    (prev_time curr_time _duration : F) (looping : Bool) : List (ℕ × String) :=
  match events with
  | none => []
  | some el =>
    if callback = false ∨ el.events.length = 0 then []
    else if looping = false ∨ prev_time ≤ curr_time then
      (el.events.filter (fun e => decide (prev_time < e.time ∧ e.time ≤ curr_time))).map
        (fun e => (e.event_id, e.name))
    else
      (el.events.filter (fun e => decide (prev_time < e.time ∨ e.time ≤ curr_time))).map
        (fun e => (e.event_id, e.name))

/- ================================================================
   Pose algebra (`src/renderer/anim_blend.c`) over the reals.
   The quaternion primitives are modelled from the cglm library, an
   external dependency of the repository (`cglm/quat.h`).
   ================================================================ -/

noncomputable section

/-- Quaternion dot product (`glm_quat_dot`, modelled from cglm). -/
def quat_dot (a b : Quat ℝ) : ℝ := a.x * b.x + a.y * b.y + a.z * b.z + a.w * b.w

/-- Componentwise negation (`glm_vec4_negate`, modelled from cglm). -/
def quat_neg (q : Quat ℝ) : Quat ℝ := ⟨-q.x, -q.y, -q.z, -q.w⟩

/-- Componentwise scaling (`glm_vec4_scale`, modelled from cglm). -/
def quat_scale (s : ℝ) (q : Quat ℝ) : Quat ℝ := ⟨s * q.x, s * q.y, s * q.z, s * q.w⟩

/-- Componentwise sum (`glm_vec4_add`, modelled from cglm). -/
def quat_add (a b : Quat ℝ) : Quat ℝ := ⟨a.x + b.x, a.y + b.y, a.z + b.z, a.w + b.w⟩

/-- Quaternion conjugate (`glm_quat_conjugate`, modelled from cglm). -/
def quat_conjugate (q : Quat ℝ) : Quat ℝ := ⟨-q.x, -q.y, -q.z, q.w⟩

/-- Hamilton product in xyzw order (`glm_quat_mul`, modelled from
cglm). -/
def glm_quat_mul (p q : Quat ℝ) : Quat ℝ :=
  ⟨p.w * q.x + p.x * q.w + p.y * q.z - p.z * q.y,
   p.w * q.y - p.x * q.z + p.y * q.w + p.z * q.x,
   p.w * q.z + p.x * q.y - p.y * q.x + p.z * q.w,
   p.w * q.w - p.x * q.x - p.y * q.y - p.z * q.z⟩

/-- Quaternion inverse (`glm_quat_inv`, modelled from cglm): the
conjugate scaled by the reciprocal of the squared norm. -/
def glm_quat_inv (q : Quat ℝ) : Quat ℝ :=
  quat_scale (1 / quat_dot q q) (quat_conjugate q)

/-- Componentwise linear interpolation (`glm_quat_lerp`, modelled from
cglm): `from + (to - from) * t`. -/
def glm_quat_lerp (qa qb : Quat ℝ) (t : ℝ) : Quat ℝ :=
  ⟨qa.x + (qb.x - qa.x) * t, qa.y + (qb.y - qa.y) * t,
   qa.z + (qb.z - qa.z) * t, qa.w + (qb.w - qa.w) * t⟩

/-- Quaternion normalization (`glm_quat_normalize`, modelled from
cglm): identity when the norm is not positive. -/
def glm_quat_normalize (q : Quat ℝ) : Quat ℝ :=
  let norm := Real.sqrt (quat_dot q q)
  if norm ≤ 0 then ⟨0, 0, 0, 1⟩ else quat_scale (1 / norm) q

/-- Spherical interpolation (`glm_quat_slerp`, modelled from cglm):
an early copy of `from` when the cosine is out of range, an internal
antipode correction, a lerp fallback near zero angle, and otherwise
the standard sine-weighted combination. -/
def glm_quat_slerp (qa qb : Quat ℝ) (t : ℝ) : Quat ℝ :=
  let cosTheta0 := quat_dot qa qb
  if 1 ≤ |cosTheta0| then qa
  else
    let q1 := if cosTheta0 < 0 then quat_neg qa else qa
    let c := if cosTheta0 < 0 then -cosTheta0 else cosTheta0
    let sinTheta := Real.sqrt (1 - c * c)
    if |sinTheta| < 1 / 1000 then glm_quat_lerp qa qb t
    else
      let angle := Real.arccos c
      quat_scale (1 / sinTheta)
        (quat_add (quat_scale (Real.sin ((1 - t) * angle)) q1)
                  (quat_scale (Real.sin (t * angle)) qb))

/-- Componentwise `vec3` linear interpolation used by `pose_blend`:
`a * inv + b * factor` with `inv = 1 - factor`. -/
def vec3_blend (a b : Vec3 ℝ) (factor : ℝ) : Vec3 ℝ :=
  ⟨a.x * (1 - factor) + b.x * factor,
   a.y * (1 - factor) + b.y * factor,
   a.z * (1 - factor) + b.z * factor⟩

/-- The per-joint rotation path of `pose_blend`: shortest-path
correction (negate `qb` when the dot product is negative) followed by
`glm_quat_slerp`. -/
def blend_rotation (qa qb0 : Quat ℝ) (factor : ℝ) : Quat ℝ :=
  let d := quat_dot qa qb0
  let qb := if d < 0 then quat_neg qb0 else qb0
  glm_quat_slerp qa qb factor

/-- `pose_blend` of `anim_blend.c`: joints below `joint_count` are
blended (lerp for translation and scale, shortest-path slerp for
rotation); the other slots of the output buffer keep their previous
content. -/
def pose_blend (a b : AnimPose ℝ) (joint_count : ℕ) (factor : ℝ)
    (out : AnimPose ℝ) : AnimPose ℝ :=
  { translations := fun j => if j < joint_count then
      vec3_blend (a.translations j) (b.translations j) factor else out.translations j,
    rotations := fun j => if j < joint_count then
      blend_rotation (a.rotations j) (b.rotations j) factor else out.rotations j,
    scales := fun j => if j < joint_count then
      vec3_blend (a.scales j) (b.scales j) factor else out.scales j }

/-- `pose_blend_masked` of `anim_blend.c`: per joint the effective
weight is `mask[j] * factor`; below `1e-6` the base joint is copied
verbatim, otherwise the joint is blended with the effective weight. -/
def pose_blend_masked (base overlay : AnimPose ℝ) (joint_count : ℕ)
    (mask : BoneMask ℝ) (factor : ℝ) (out : AnimPose ℝ) : AnimPose ℝ :=
  { translations := fun j => if j < joint_count then
      (let w := mask.weights j * factor
       if w < 1 / 1000000 then base.translations j
       else vec3_blend (base.translations j) (overlay.translations j) w)
      else out.translations j,
    rotations := fun j => if j < joint_count then
      (let w := mask.weights j * factor
       if w < 1 / 1000000 then base.rotations j
       else blend_rotation (base.rotations j) (overlay.rotations j) w)
      else out.rotations j,
    scales := fun j => if j < joint_count then
      (let w := mask.weights j * factor
       if w < 1 / 1000000 then base.scales j
       else vec3_blend (base.scales j) (overlay.scales j) w)
      else out.scales j }

/-- The per-joint effective weight of `pose_blend_additive`. -/
def additive_weight (mask : Option (BoneMask ℝ)) (weight : ℝ) (j : ℕ) : ℝ :=
  match mask with
  | some m => weight * m.weights j
  | none => weight

/-- The per-joint rotation path of `pose_blend_additive`:
`q_delta = inv(ref) * additive`, shortest-path correction against the
identity quaternion, slerp from the identity by the weight, multiply
onto the base rotation and renormalize. -/
def additive_rotation (base additive reference : Quat ℝ) (w : ℝ) : Quat ℝ :=
  let ref_inv := glm_quat_inv reference
  let q_delta0 := glm_quat_mul ref_inv additive
  let q_delta := if q_delta0.w < 0 then quat_neg q_delta0 else q_delta0
  let q_delta_weighted := glm_quat_slerp ⟨0, 0, 0, 1⟩ q_delta w
  glm_quat_normalize (glm_quat_mul base q_delta_weighted)

/-- `pose_blend_additive` of `anim_blend.c`. -/
def pose_blend_additive (base additive reference : AnimPose ℝ)
    (joint_count : ℕ) (mask : Option (BoneMask ℝ)) (weight : ℝ)
    (out : AnimPose ℝ) : AnimPose ℝ :=
  { translations := fun j => if j < joint_count then
      (let w := additive_weight mask weight j
       if w < 1 / 1000000 then base.translations j
       else ⟨(base.translations j).x + ((additive.translations j).x - (reference.translations j).x) * w,
             (base.translations j).y + ((additive.translations j).y - (reference.translations j).y) * w,
             (base.translations j).z + ((additive.translations j).z - (reference.translations j).z) * w⟩)
      else out.translations j,
    rotations := fun j => if j < joint_count then
      (let w := additive_weight mask weight j
       if w < 1 / 1000000 then base.rotations j
       else additive_rotation (base.rotations j) (additive.rotations j) (reference.rotations j) w)
      else out.rotations j,
    scales := fun j => if j < joint_count then
      (let w := additive_weight mask weight j
       if w < 1 / 1000000 then base.scales j
       else ⟨(base.scales j).x + ((additive.scales j).x - (reference.scales j).x) * w,
             (base.scales j).y + ((additive.scales j).y - (reference.scales j).y) * w,
             (base.scales j).z + ((additive.scales j).z - (reference.scales j).z) * w⟩)
      else out.scales j }

/-- `pose_from_rest` of `anim_blend.c`. -/
def pose_from_rest (skel : Skeleton ℝ) (out : AnimPose ℝ) : AnimPose ℝ :=
  { translations := fun j => if j < skel.joint_count then skel.rest_translations j else out.translations j,
    rotations := fun j => if j < skel.joint_count then skel.rest_rotations j else out.rotations j,
    scales := fun j => if j < skel.joint_count then skel.rest_scales j else out.scales j }

/-- `pose_copy` of `anim_blend.c`. -/
def pose_copy (src : AnimPose ℝ) (joint_count : ℕ) (dst : AnimPose ℝ) : AnimPose ℝ :=
  { translations := fun j => if j < joint_count then src.translations j else dst.translations j,
    rotations := fun j => if j < joint_count then src.rotations j else dst.rotations j,
    scales := fun j => if j < joint_count then src.scales j else dst.scales j }

end

/- ================================================================
   Clip sampler (`src/renderer/animation.c`).
   ================================================================ -/

/-- The binary-search loop of `find_keyframe`: while `lo < hi - 1`,
move `lo` up to the midpoint when its timestamp is at most `time`,
else move `hi` down.  (The C counters are `u32`; the loop is only
entered with `hi ≥ 1`, so the unsigned `hi - 1` matches `ℕ`
subtraction.) -/
def find_keyframe_loop {F : Type} [LinearOrderedField F]
    (ts : List F) (time : F) : ℕ → ℕ → ℕ
  | lo, hi =>
    if h : lo + 1 < hi then
      let mid := (lo + hi) / 2
      if ts.getD mid 0 ≤ time then find_keyframe_loop ts time mid hi
      else find_keyframe_loop ts time lo mid
    else lo
termination_by lo hi => hi - lo
decreasing_by
  · omega
  · omega

/-- `find_keyframe` of `animation.c`: the last keyframe index whose
timestamp is at most `time`, by binary search from `(0, count - 1)`. -/
def find_keyframe {F : Type} [LinearOrderedField F]
    (ts : List F) (count : ℕ) (time : F) : ℕ :=
  find_keyframe_loop ts time 0 (count - 1)

/-- Reading `components` consecutive floats at an offset of the flat
value array of a channel (`memcpy` in C; out-of-range reads are
modelled as 0). -/
def read_values {F : Type} [LinearOrderedField F]
    (vals : List F) (off : ℕ) : ℕ → F := fun i => vals.getD (off + i) 0

/-- Packing four sampled components into a quaternion. -/
def quat_of_comps {F : Type} [LinearOrderedField F] (v : ℕ → F) : Quat F :=
  ⟨v 0, v 1, v 2, v 3⟩

/-- Unpacking a quaternion into sampled components. -/
def comps_of_quat {F : Type} [LinearOrderedField F] (q : Quat F) : ℕ → F :=
  fun i => if i = 0 then q.x else if i = 1 then q.y else if i = 2 then q.z else q.w

noncomputable section

/-- `sample_channel` of `animation.c`: `none` when the channel has no
keyframes (C writes nothing), else the `components` floats written to
the output.  In the `STEP` arm the C source carries a dead
cubic-spline test (the interpolation is `STEP` there), so the arm
reduces to the value at the lower keyframe. -/
def sample_channel (ch : AnimChannel ℝ) (time : ℝ) : Option (ℕ → ℝ) :=
  let components : ℕ := if ch.path = AnimPathType.rotation then 4 else 3
  if ch.keyframe_count = 0 then none
  else if ch.keyframe_count = 1 ∨ time ≤ ch.timestamps.getD 0 0 then
    if ch.interpolation = AnimInterpolation.cubicspline then
      some (read_values ch.values components)
    else
      some (read_values ch.values 0)
  else if ch.timestamps.getD (ch.keyframe_count - 1) 0 ≤ time then
    let last := ch.keyframe_count - 1
    if ch.interpolation = AnimInterpolation.cubicspline then
      some (read_values ch.values (last * 3 * components + components))
    else
      some (read_values ch.values (last * components))
  else
    let k0 := find_keyframe ch.timestamps ch.keyframe_count time
    let k1 := k0 + 1
    let t0 := ch.timestamps.getD k0 0
    let t1 := ch.timestamps.getD k1 0
    let t := if (1 : ℝ) / 1000000 < t1 - t0 then (time - t0) / (t1 - t0) else 0
    match ch.interpolation with
    | .step => some (read_values ch.values (k0 * components))
    | .linear =>
      if ch.path = AnimPathType.rotation then
        some (comps_of_quat (glm_quat_slerp
          (quat_of_comps (read_values ch.values (k0 * 4)))
          (quat_of_comps (read_values ch.values (k1 * 4))) t))
      else
        some (fun i => ch.values.getD (k0 * 3 + i) 0 +
          (ch.values.getD (k1 * 3 + i) 0 - ch.values.getD (k0 * 3 + i) 0) * t)
    | .cubicspline =>
      let dt := t1 - t0
      let t2 := t * t
      let t3 := t2 * t
      let v0 := read_values ch.values (k0 * 3 * components + components)
      let b0 := read_values ch.values (k0 * 3 * components + 2 * components)
      let v1 := read_values ch.values (k1 * 3 * components + components)
      let a1 := read_values ch.values (k1 * 3 * components)
      let raw := fun i => (2 * t3 - 3 * t2 + 1) * v0 i + (t3 - 2 * t2 + t) * dt * b0 i
        + (-2 * t3 + 3 * t2) * v1 i + (t3 - t2) * dt * a1 i
      if ch.path = AnimPathType.rotation then
        some (comps_of_quat (glm_quat_normalize (quat_of_comps raw)))
      else
        some raw

/-- `animation_evaluate_pose` of `animation.c`: start from the rest
pose, then override the targeted component of every channel whose
joint is in range. -/
def animation_evaluate_pose (skel : Skeleton ℝ) (clip : AnimClip ℝ)
    (time : ℝ) (out : AnimPose ℝ) : AnimPose ℝ :=
  let rest := pose_from_rest skel out
  clip.channels.foldl (fun pose ch =>
    if skel.joint_count ≤ ch.target_joint then pose
    else
      match sample_channel ch time with
      | none => pose
      | some v =>
        match ch.path with
        | .translation =>
          { pose with translations := fun j =>
              if j = ch.target_joint then ⟨v 0, v 1, v 2⟩ else pose.translations j }
        | .rotation =>
          { pose with rotations := fun j =>
              if j = ch.target_joint then ⟨v 0, v 1, v 2, v 3⟩ else pose.rotations j }
        | .scale =>
          { pose with scales := fun j =>
              if j = ch.target_joint then ⟨v 0, v 1, v 2⟩ else pose.scales j }) rest

/- ================================================================
   Pose to skinning matrices (`animation_pose_to_matrices` of
   `src/renderer/animation.c`), with the cglm matrix helpers.
   ================================================================ -/

/-- Translation matrix (`glm_translate` applied to the identity,
modelled from cglm; column-major storage rendered as a mathematical
matrix). -/
def translate_mat (v : Vec3 ℝ) : Mat4 ℝ :=
  !![1, 0, 0, v.x; 0, 1, 0, v.y; 0, 0, 1, v.z; 0, 0, 0, 1]

/-- Scale matrix (`glm_scale` applied to the identity, modelled from
cglm). -/
def scale_mat (v : Vec3 ℝ) : Mat4 ℝ :=
  !![v.x, 0, 0, 0; 0, v.y, 0, 0; 0, 0, v.z, 0; 0, 0, 0, 1]

/-- Rotation matrix from a quaternion (`glm_quat_mat4`, modelled from
cglm): scale factor `2 / norm` guarded at zero norm. -/
def quat_mat4 (q : Quat ℝ) : Mat4 ℝ :=
  let norm := Real.sqrt (quat_dot q q)
  let s := if 0 < norm then 2 / norm else 0
  let xx := s * q.x * q.x
  let yy := s * q.y * q.y
  let zz := s * q.z * q.z
  let xy := s * q.x * q.y
  let yz := s * q.y * q.z
  let xz := s * q.x * q.z
  let wx := s * q.w * q.x
  let wy := s * q.w * q.y
  let wz := s * q.w * q.z
  !![1 - yy - zz, xy - wz, xz + wy, 0;
     xy + wz, 1 - xx - zz, yz - wx, 0;
     xz - wy, yz + wx, 1 - xx - yy, 0;
     0, 0, 0, 1]

/-- The local transform `T * R * S` built per joint by
`animation_pose_to_matrices`. -/
def local_transform (pose : AnimPose ℝ) (j : ℕ) : Mat4 ℝ :=
  translate_mat (pose.translations j) * quat_mat4 (pose.rotations j) * scale_mat (pose.scales j)

/-- The forward parent sweep of `animation_pose_to_matrices`.  The C
loop runs over ascending joint indices, so reading the global
transform of a parent that has not been written yet (a parent index at
or above the current joint, violating the topological invariant)
yields the zeroed arena memory. -/
def global_transform (root : Mat4 ℝ) (parent : ℕ → ℤ) (locals : ℕ → Mat4 ℝ) :
    ℕ → Mat4 ℝ
  | j =>
    if parent j < 0 then root * locals j
    else
      (if h : (parent j).toNat < j then
        global_transform root parent locals (parent j).toNat
      else (0 : Mat4 ℝ)) * locals j
termination_by j => j

/-- `animation_pose_to_matrices` of `animation.c`: allocate two
temporary `mat4` arrays from the scratch arena (identity output for
every joint when either allocation fails), build local transforms,
sweep the parent chain, and write `global * inverse_bind` for every
joint below the joint count; output slots at or above the joint count
keep their previous content. -/
def animation_pose_to_matrices (pose : AnimPose ℝ) (skel : Skeleton ℝ)
    (outm : ℕ → Mat4 ℝ) (ar : Arena) : (ℕ → Mat4 ℝ) × Arena :=
  let jc := skel.joint_count
  let r1 := arena_alloc ar (sizeofMat4 * jc)
  let r2 := arena_alloc r1.2 (sizeofMat4 * jc)
  if r1.1 = false ∨ r2.1 = false then
    (fun j => if j < jc then (1 : Mat4 ℝ) else outm j, r2.2)
  else
    let globals := global_transform skel.root_transform skel.parent_indices
      (local_transform pose)
    (fun j => if j < jc then globals j * skel.inverse_bind_matrices j else outm j, r2.2)

end

/- ================================================================
   Blend spaces (`src/renderer/anim_blend_space.c`).
   ================================================================ -/

noncomputable section

/-- Sampling one clip of a blend space at the synchronized time
`normalized_time * clip.duration`, with rest-pose fallback for an
out-of-range clip index (the repeated idiom of
`anim_blend_space.c`). -/
def sample_clip_synced (model : SkinnedModel ℝ) (ci : ℕ)
    (normalized_t : ℝ) (out : AnimPose ℝ) : AnimPose ℝ :=
  if ci < model.clips.length then
    animation_evaluate_pose model.skeleton (model.clips.getD ci default)
      (normalized_t * (model.clips.getD ci default).duration) out
  else
    pose_from_rest model.skeleton out

/-- `blend_space_1d_evaluate` of `anim_blend_space.c`. -/
def blend_space_1d_evaluate (space : BlendSpace1D ℝ) (param_value : ℝ)
    (model : SkinnedModel ℝ) (normalized_t : ℝ) (ar : Arena)
    (out : AnimPose ℝ) : AnimPose ℝ × Arena :=
  let skel := model.skeleton
  if space.entries.length = 0 then (pose_from_rest skel out, ar)
  else
    let lo_pos := (space.entries.getD 0 default).position
    let hi_pos := (space.entries.getD (space.entries.length - 1) default).position
    let p1 := if param_value ≤ lo_pos then lo_pos else param_value
    let p := if hi_pos ≤ p1 then hi_pos else p1
    if space.entries.length = 1 then
      (sample_clip_synced model (space.entries.getD 0 default).clip_index normalized_t out, ar)
    else
      let lohi := bracket1d space.entries p
      let lo := lohi.1
      let hi := lohi.2
      let range := (space.entries.getD hi default).position - (space.entries.getD lo default).position
      let factor := if (1 : ℝ) / 1000000 < range then
        (p - (space.entries.getD lo default).position) / range else 0
      let ci_a := (space.entries.getD lo default).clip_index
      let ci_b := (space.entries.getD hi default).clip_index
      let r1 := arena_alloc ar sizeofAnimPose
      let r2 := arena_alloc r1.2 sizeofAnimPose
      if r1.1 = false ∨ r2.1 = false then (pose_from_rest skel out, r2.2)
      else
        let pose_a := sample_clip_synced model ci_a normalized_t zeroPose
        let pose_b := sample_clip_synced model ci_b normalized_t zeroPose
        (pose_blend pose_a pose_b skel.joint_count factor out, r2.2)

/-- The squared-distance array of `blend_space_2d_evaluate`. -/
def blend2d_dists (space : BlendSpace2D ℝ) (px py : ℝ) : ℕ → ℝ :=
  fun i =>
    let dx := px - (space.entries.getD i default).position_x
    let dy := py - (space.entries.getD i default).position_y
    dx * dx + dy * dy

/-- The inner displacement pass of the nearest-3 selection of
`blend_space_2d_evaluate`: the index displaced from slot `i` is pushed
into the later slots whenever it is closer. -/
def nearest3_push (dists : ℕ → ℝ) (i : ℕ) (idx : ℕ → ℕ) (tmp : ℕ) : ℕ → ℕ :=
  ((List.range' (i + 1) (3 - (i + 1))).foldl
    (fun (st : (ℕ → ℕ) × ℕ) m =>
      if dists st.2 < dists (st.1 m) then
        (fun j => if j = m then st.2 else st.1 j, st.1 m)
      else st)
    (idx, tmp)).1

/-- The nearest-3 selection of `blend_space_2d_evaluate`: slots start
as `(0, 1, 2)`; for each slot `i < 3` every later entry that is closer
replaces it, and the displaced index is pushed back into the later
slots. -/
def nearest3 (dists : ℕ → ℝ) (count : ℕ) : ℕ → ℕ :=
  (List.range (min 3 count)).foldl
    (fun idx i =>
      (List.range' (i + 1) (count - (i + 1))).foldl
        (fun idx k =>
          if dists k < dists (idx i) then
            let tmp := idx i
            let idx1 := fun j => if j = i then k else idx j
            if i + 1 < 3 then nearest3_push dists i idx1 tmp else idx1
          else idx)
        idx)
    (fun j => j)

/-- `blend_space_2d_evaluate` of `anim_blend_space.c`. -/
def blend_space_2d_evaluate (space : BlendSpace2D ℝ) (param_x param_y : ℝ)
    (model : SkinnedModel ℝ) (normalized_t : ℝ) (ar : Arena)
    (out : AnimPose ℝ) : AnimPose ℝ × Arena :=
  let skel := model.skeleton
  if space.entries.length = 0 then (pose_from_rest skel out, ar)
  else if space.entries.length = 1 then
    (sample_clip_synced model (space.entries.getD 0 default).clip_index normalized_t out, ar)
  else if space.entries.length = 2 then
    let dx := (space.entries.getD 1 default).position_x - (space.entries.getD 0 default).position_x
    let dy := (space.entries.getD 1 default).position_y - (space.entries.getD 0 default).position_y
    let px := param_x - (space.entries.getD 0 default).position_x
    let py := param_y - (space.entries.getD 0 default).position_y
    let len2 := dx * dx + dy * dy
    let t_proj0 := if (1 : ℝ) / 1000000 < len2 then (px * dx + py * dy) / len2 else 0
    let t_proj1 := if t_proj0 < 0 then 0 else t_proj0
    let t_proj := if 1 < t_proj1 then 1 else t_proj1
    let r1 := arena_alloc ar sizeofAnimPose
    let r2 := arena_alloc r1.2 sizeofAnimPose
    if r1.1 = false ∨ r2.1 = false then (pose_from_rest skel out, r2.2)
    else
      let pa := sample_clip_synced model (space.entries.getD 0 default).clip_index normalized_t zeroPose
      let pb := sample_clip_synced model (space.entries.getD 1 default).clip_index normalized_t zeroPose
      (pose_blend pa pb skel.joint_count t_proj out, r2.2)
  else
    let dists := blend2d_dists space param_x param_y
    let idx := nearest3 dists space.entries.length
    let x0 := (space.entries.getD (idx 0) default).position_x
    let y0 := (space.entries.getD (idx 0) default).position_y
    let x1 := (space.entries.getD (idx 1) default).position_x
    let y1 := (space.entries.getD (idx 1) default).position_y
    let x2 := (space.entries.getD (idx 2) default).position_x
    let y2 := (space.entries.getD (idx 2) default).position_y
    let det := (y1 - y2) * (x0 - x2) + (x2 - x1) * (y0 - y2)
    let ws : ℝ × ℝ × ℝ :=
      if |det| < 1 / 1000000 then
        let d0 := Real.sqrt (dists (idx 0)) + 1 / 1000000
        let d1 := Real.sqrt (dists (idx 1)) + 1 / 1000000
        let d2 := Real.sqrt (dists (idx 2)) + 1 / 1000000
        let inv_sum := 1 / (1 / d0 + 1 / d1 + 1 / d2)
        (1 / d0 * inv_sum, 1 / d1 * inv_sum, 1 / d2 * inv_sum)
      else
        let w0 := ((y1 - y2) * (param_x - x2) + (x2 - x1) * (param_y - y2)) / det
        let w1 := ((y2 - y0) * (param_x - x2) + (x0 - x2) * (param_y - y2)) / det
        let w2 := 1 - w0 - w1
        let w0 := if w0 < 0 then 0 else w0
        let w1 := if w1 < 0 then 0 else w1
        let w2 := if w2 < 0 then 0 else w2
        let wsum := w0 + w1 + w2
        if (1 : ℝ) / 1000000 < wsum then (w0 / wsum, w1 / wsum, w2 / wsum)
        else (1, 0, 0)
    let r1 := arena_alloc ar sizeofAnimPose
    let r2 := arena_alloc r1.2 sizeofAnimPose
    let r3 := arena_alloc r2.2 sizeofAnimPose
    let r4 := arena_alloc r3.2 sizeofAnimPose
    if r1.1 = false ∨ r2.1 = false ∨ r3.1 = false ∨ r4.1 = false then
      (pose_from_rest skel out, r4.2)
    else
      let p0 := sample_clip_synced model (space.entries.getD (idx 0) default).clip_index normalized_t zeroPose
      let p1 := sample_clip_synced model (space.entries.getD (idx 1) default).clip_index normalized_t zeroPose
      let p2 := sample_clip_synced model (space.entries.getD (idx 2) default).clip_index normalized_t zeroPose
      let jc := skel.joint_count
      if (1 : ℝ) / 1000000 < ws.1 + ws.2.1 then
        let f01 := ws.2.1 / (ws.1 + ws.2.1)
        let tmp := pose_blend p0 p1 jc f01 zeroPose
        (pose_blend tmp p2 jc ws.2.2 out, r4.2)
      else
        let tmp := pose_copy p2 jc zeroPose
        (pose_blend tmp p2 jc 1 out, r4.2)

/- ================================================================
   State evaluation and the per-frame update (`anim_graph.c`).
   ================================================================ -/

/-- `evaluate_state` of `anim_graph.c`: dispatch on the state type;
clip states sample directly at `state_time`, blend states compute the
guarded normalized time from the effective state duration and delegate
to the blend-space evaluators (which may allocate scratch poses). -/
def evaluate_state (state : AnimStateNode ℝ) (model : SkinnedModel ℝ)
    (params : AnimParamValues ℝ) (state_time : ℝ) (ar : Arena)
    (out : AnimPose ℝ) : AnimPose ℝ × Arena :=
  match state.data with
  | .clip ci =>
    if ci < model.clips.length then
      (animation_evaluate_pose model.skeleton (model.clips.getD ci default) state_time out, ar)
    else
      (pose_from_rest model.skeleton out, ar)
  | .blend1d bs =>
    let dur := get_state_duration state model params
    let norm_t := normalized_time state_time dur
    blend_space_1d_evaluate bs (params.values bs.param_index).f model norm_t ar out
  | .blend2d bs =>
    let dur := get_state_duration state model params
    let norm_t := normalized_time state_time dur
    blend_space_2d_evaluate bs (params.values bs.param_x_index).f
      (params.values bs.param_y_index).f model norm_t ar out

/-- The clamp-at-one of the crossfade factor together with the raw
`(duration > 1e-6) ? elapsed / duration : 1` ternary of
`anim_graph_update`. -/
def transition_blend_factor (elapsed duration : ℝ) : ℝ :=
  let raw := if (1 : ℝ) / 1000000 < duration then elapsed / duration else 1
  if 1 ≤ raw then 1 else raw

/-- The result of one per-layer iteration of `anim_graph_update`. -/
structure LayerStepResult where
  ls : AnimLayerState ℝ
  pose : AnimPose ℝ
  arena : Arena
  fired : List (ℕ × String)

/-- One iteration of the per-layer loop of `anim_graph_update`
(`anim_graph.c`, the body of the second loop): transition selection
when not transitioning, time advance, current-state evaluation,
crossfade handling, event firing and the `prev_event_time` write.  The
pose written to the pre-allocated (zeroed) layer slot is returned. -/
def anim_update_layer (layer_def : AnimLayerDef ℝ) (ls : AnimLayerState ℝ)
    (params : AnimParamValues ℝ) (model : SkinnedModel ℝ) (delta_time : ℝ)
    (callback : Bool) (ar : Arena) : LayerStepResult :=
  let skel := model.skeleton
  if layer_def.states.length = 0 then
    ⟨ls, pose_from_rest skel zeroPose, ar, []⟩
  else
    let cur_state0 := layer_def.states.getD ls.current_state default
    let cur_duration0 := get_state_duration cur_state0 model params
    let sel : AnimLayerState ℝ × AnimStateNode ℝ × ℝ :=
      if ls.transitioning = false then
        let norm_t := normalized_time ls.state_time cur_duration0
        match layer_def.transitions.find?
            (fun tr => tr.source_state == ls.current_state &&
              evaluate_transition tr params norm_t) with
        | some tr =>
          let ls1 : AnimLayerState ℝ :=
            ⟨tr.target_state, 0, ls.state_normalized, true, ls.current_state,
             ls.state_time, 0, tr.duration, ls.prev_event_time⟩
          let st := layer_def.states.getD tr.target_state default
          (ls1, st, get_state_duration st model params)
        | none => (ls, cur_state0, cur_duration0)
      else (ls, cur_state0, cur_duration0)
    let cur_state := sel.2.1
    let cur_duration := sel.2.2
    let prev_time := sel.1.state_time
    let new_time := advance_state_time sel.1.state_time delta_time cur_state.speed
      cur_state.looping cur_duration
    let ls2 := { sel.1 with
                 state_time := new_time,
                 state_normalized := normalized_time new_time cur_duration }
    let r1 := arena_alloc ar sizeofAnimPose
    if r1.1 = false then
      ⟨ls2, pose_from_rest skel zeroPose, r1.2, []⟩
    else
      let ev := evaluate_state cur_state model params ls2.state_time r1.2 zeroPose
      let tri : AnimLayerState ℝ × AnimPose ℝ × Arena :=
        if ls2.transitioning = true then
          let prev_state := layer_def.states.getD ls2.prev_state default
          let prev_dur := get_state_duration prev_state model params
          let pst := advance_state_time ls2.prev_state_time delta_time
            prev_state.speed prev_state.looping prev_dur
          let ls3 := { ls2 with prev_state_time := pst }
          let r2 := arena_alloc ev.2 sizeofAnimPose
          if r2.1 = true then
            let evp := evaluate_state prev_state model params ls3.prev_state_time r2.2 zeroPose
            let ls4 := { ls3 with transition_elapsed := ls3.transition_elapsed + delta_time }
            let raw : ℝ := if (1 : ℝ) / 1000000 < ls4.transition_duration then
              ls4.transition_elapsed / ls4.transition_duration else 1
            let bf := if 1 ≤ raw then 1 else raw
            let ls5 := if 1 ≤ raw then { ls4 with transitioning := false } else ls4
            (ls5, pose_blend evp.1 ev.1 skel.joint_count bf zeroPose, evp.2)
          else
            (ls3, pose_copy ev.1 skel.joint_count zeroPose, r2.2)
        else
          (ls2, pose_copy ev.1 skel.joint_count zeroPose, ev.2)
      let fired :=
        if cur_state.events.isSome = true ∧ callback = true then
          fire_events cur_state.events callback prev_time tri.1.state_time
            cur_duration cur_state.looping
        else []
      ⟨{ tri.1 with prev_event_time := tri.1.state_time }, tri.2.1, tri.2.2, fired⟩

/-- The first loop of `anim_graph_update`: one scratch pose per layer,
returning at the first failed allocation. -/
def alloc_layer_poses (ar : Arena) : ℕ → Bool × Arena
  | 0 => (true, ar)
  | n + 1 =>
    let r := arena_alloc ar sizeofAnimPose
    if r.1 = false then (false, r.2)
    else alloc_layer_poses r.2 n

/-- The per-layer loop of `anim_graph_update` over the listed layer
indices, threading the layer-state store and the arena and collecting
the layer poses and the event trace in order. -/
def anim_update_layers (g : AnimGraphDef ℝ) (model : SkinnedModel ℝ)
    (params : AnimParamValues ℝ) (delta_time : ℝ) (callback : Bool) :
    List ℕ → (ℕ → AnimLayerState ℝ) → Arena →
    (ℕ → AnimLayerState ℝ) × List (AnimPose ℝ) × Arena × List (ℕ × String)
  | [], lsf, ar => (lsf, [], ar, [])
  | l :: rest, lsf, ar =>
    let r := anim_update_layer (g.layers.getD l default) (lsf l) params model
      delta_time callback ar
    let lsf1 := fun j => if j = l then r.ls else lsf j
    let rec1 := anim_update_layers g model params delta_time callback rest lsf1 r.arena
    (rec1.1, r.pose :: rec1.2.1, rec1.2.2.1, r.fired ++ rec1.2.2.2)

/-- The layer-compositing loop of `anim_graph_update` (layers after
the first): allocate a composite pose (stopping the loop on failure),
blend according to the layer mode, and continue with the composite as
the accumulator. -/
def composite_fold (skel : Skeleton ℝ) (jc : ℕ) :
    AnimPose ℝ → List (AnimLayerDef ℝ × AnimPose ℝ) → Arena → AnimPose ℝ × Arena
  | acc, [], ar => (acc, ar)
  | acc, (ld, lp) :: rest, ar =>
    let r := arena_alloc ar sizeofAnimPose
    if r.1 = false then (acc, r.2)
    else
      match ld.blend_mode with
      | .override =>
        let comp := match ld.bone_mask with
          | some m => pose_blend_masked acc lp jc m ld.weight zeroPose
          | none => pose_blend acc lp jc ld.weight zeroPose
        composite_fold skel jc comp rest r.2
      | .additive =>
        let r2 := arena_alloc r.2 sizeofAnimPose
        if r2.1 = true then
          let ref := pose_from_rest skel zeroPose
          let comp := pose_blend_additive acc lp ref jc ld.bone_mask ld.weight zeroPose
          composite_fold skel jc comp rest r2.2
        else
          let comp := pose_copy acc jc zeroPose
          composite_fold skel jc comp rest r2.2

/-- `anim_graph_update` of `anim_graph.c`: allocate the per-layer pose
slots (logging and returning with the instance untouched when one of
these initial allocations fails), run the per-layer loop, composite
the layer poses (rest pose when there are no layers), convert the
final pose to skinning matrices and store the joint count.  The third
component is the trace of event-callback invocations. -/
def anim_graph_update (inst : AnimGraphInstance ℝ) (model : SkinnedModel ℝ)
    (delta_time : ℝ) (scratch : Arena) :
    AnimGraphInstance ℝ × Arena × List (ℕ × String) :=
  let skel := model.skeleton
  let jc := skel.joint_count
  let a0 := alloc_layer_poses scratch inst.graph.layers.length
  if a0.1 = false then (inst, a0.2, [])
  else
    let lr := anim_update_layers inst.graph model inst.params delta_time
      inst.event_callback (List.range inst.graph.layers.length) inst.layer_states a0.2
    if inst.graph.layers.length = 0 then
      let rest := pose_from_rest skel zeroPose
      let pm := animation_pose_to_matrices rest skel inst.joint_matrices lr.2.2.1
      ({ inst with joint_matrices := pm.1, joint_count := jc }, pm.2, lr.2.2.2)
    else
      let final0 := lr.2.1.headD zeroPose
      let cf := composite_fold skel jc final0
        ((inst.graph.layers.drop 1).zip (lr.2.1.drop 1)) lr.2.2.1
      let pm := animation_pose_to_matrices cf.1 skel inst.joint_matrices cf.2
      ({ inst with layer_states := lr.1, joint_matrices := pm.1, joint_count := jc },
       pm.2, lr.2.2.2)

end

/- ================================================================
   Extensionality for the component records.
   ================================================================ -/

attribute [ext] Vec3 Quat AnimPose AnimLayerState AnimParamValues AnimGraphInstance

/- ================================================================
   Concrete fixtures over ℚ (executable witnesses) and ℝ
   (counterexamples through the update pipeline).
   ================================================================ -/

/-- All-zero runtime parameters over ℚ. -/
def paramsQ0 : AnimParamValues ℚ := ⟨fun _ => ⟨0, false⟩⟩

/-- A transition over ℚ with an exit time and no conditions. -/
def trQ0 : AnimTransition ℚ := ⟨0, 1, 1 / 4, [], true, 1 / 2⟩

/-- A skeleton over ℚ with no joints. -/
def skelQ0 : Skeleton ℚ :=
  ⟨0, fun _ => -1, fun _ => 0, fun _ => zeroVec3, fun _ => zeroQuat, fun _ => zeroVec3, 1⟩

/-- A model over ℚ whose only clip has duration zero. -/
def modelQ0 : SkinnedModel ℚ := ⟨skelQ0, [⟨"idle", 0, []⟩]⟩

/-- A clip state over ℚ referencing the zero-duration clip. -/
def stateQ0 : AnimStateNode ℚ := ⟨"idle", .clip 0, 1, true, none⟩

/-- An instance over ℚ whose definition declares no parameters. -/
def instQ0 : AnimGraphInstance ℚ :=
  ⟨⟨[], []⟩, paramsQ0, fun _ => default, false, fun _ => 0, 0⟩

/-- A graph definition over ℚ with one empty layer (builder input). -/
def graphQ1 : AnimGraphDef ℚ := ⟨[], [⟨"base", [], [], 0, none, 1, .override⟩]⟩

/-- Nine 1-D blend entries over ℚ (one more than the 8-entry cap). -/
def entries1dQ : List (BlendSpace1DEntry ℚ) :=
  [⟨9, 0⟩, ⟨8, 1⟩, ⟨7, 2⟩, ⟨6, 3⟩, ⟨5, 4⟩, ⟨4, 5⟩, ⟨3, 6⟩, ⟨2, 7⟩, ⟨1, 8⟩]

/-- Seventeen 2-D blend entries over ℚ (one more than the 16-entry
cap). -/
def entries2dQ : List (BlendSpace2DEntry ℚ) :=
  [⟨0, 0, 0⟩, ⟨1, 0, 1⟩, ⟨2, 0, 2⟩, ⟨3, 0, 3⟩, ⟨4, 0, 4⟩, ⟨5, 0, 5⟩, ⟨6, 0, 6⟩,
   ⟨7, 0, 7⟩, ⟨8, 0, 8⟩, ⟨9, 0, 9⟩, ⟨10, 0, 10⟩, ⟨11, 0, 11⟩, ⟨12, 0, 12⟩,
   ⟨13, 0, 13⟩, ⟨14, 0, 14⟩, ⟨15, 0, 15⟩, ⟨16, 0, 16⟩]

/-- An event list over ℚ: a single event at time 1. -/
def evtsQ : AnimEventList ℚ := ⟨[⟨1, 7, "kick"⟩]⟩

noncomputable section

/-- A skeleton over ℝ with no joints. -/
def skelR0 : Skeleton ℝ :=
  ⟨0, fun _ => -1, fun _ => 0, fun _ => zeroVec3, fun _ => zeroQuat, fun _ => zeroVec3, 1⟩

/-- A model over ℝ with one looping clip of duration 2 and no
channels. -/
def modelR0 : SkinnedModel ℝ := ⟨skelR0, [⟨"cycle", 2, []⟩]⟩

/-- An event list over ℝ: a single event (id 7) at time 1. -/
def evtsR : AnimEventList ℝ := ⟨[⟨1, 7, "kick"⟩]⟩

/-- A looping clip state over ℝ at speed 1 carrying the event list. -/
def stateR0 : AnimStateNode ℝ := ⟨"cycle", .clip 0, 1, true, some evtsR⟩

/-- A one-state layer over ℝ with no transitions. -/
def layerR0 : AnimLayerDef ℝ := ⟨"base", [stateR0], [], 0, none, 1, .override⟩

/-- A one-layer graph definition over ℝ. -/
def graphR0 : AnimGraphDef ℝ := ⟨[], [layerR0]⟩

/-- All-zero runtime parameters over ℝ. -/
def paramsR0 : AnimParamValues ℝ := ⟨fun _ => ⟨0, false⟩⟩

/-- A layer state over ℝ sitting mid-cycle at `state_time = 1/2`. -/
def lsR0 : AnimLayerState ℝ := ⟨0, 1 / 2, 0, false, 0, 0, 0, 0, 0⟩

/-- An instance over ℝ of `graphR0` with an event callback
installed. -/
def instR0 : AnimGraphInstance ℝ :=
  ⟨graphR0, paramsR0, fun _ => lsR0, true, fun _ => 1, 0⟩

/-- A skeleton over ℝ with one joint. -/
def skelR1 : Skeleton ℝ :=
  ⟨1, fun _ => -1, fun _ => 0, fun _ => zeroVec3, fun _ => zeroQuat, fun _ => zeroVec3, 1⟩

/-- A model over ℝ with one joint and one clip. -/
def modelR1 : SkinnedModel ℝ := ⟨skelR1, [⟨"cycle", 2, []⟩]⟩

/-- An instance over ℝ of `graphR0` whose stored joint count (5) does
not match the model. -/
def instR5 : AnimGraphInstance ℝ :=
  ⟨graphR0, paramsR0, fun _ => lsR0, false, fun _ => 1, 5⟩

/-- A transitioning layer state over ℝ: crossfade of duration 2/5,
elapsed 1/5, between clip states 0 and 1. -/
def lsTransR : AnimLayerState ℝ := ⟨1, 0, 0, true, 0, 0, 1 / 5, 2 / 5, 0⟩

/-- A non-looping clip state over ℝ without events. -/
def stateR1 : AnimStateNode ℝ := ⟨"b", .clip 0, 1, false, none⟩

/-- A two-state layer over ℝ used by the crossfade step. -/
def layerR2 : AnimLayerDef ℝ := ⟨"x", [stateR1, stateR1], [], 0, none, 1, .override⟩

/-- A generously sized scratch arena. -/
def arenaBig : Arena := ⟨1000000, 0⟩

/-- A pose over ℝ with the identity rotation on every joint. -/
def poseA : AnimPose ℝ :=
  ⟨fun _ => ⟨1, 2, 3⟩, fun _ => ⟨0, 0, 0, 1⟩, fun _ => ⟨1, 1, 1⟩⟩

/-- A pose over ℝ with the antipodal identity rotation `(0,0,0,-1)` on
every joint. -/
def poseB : AnimPose ℝ :=
  ⟨fun _ => ⟨4, 5, 6⟩, fun _ => ⟨0, 0, 0, -1⟩, fun _ => ⟨2, 2, 2⟩⟩

end

/-- Appending a freshly built state node to the state array of layer
`li` (the common tail of the builder `add_state` functions). -/
def append_state {F : Type} [LinearOrderedField F] (g : AnimGraphDef F)
    (li : ℕ) (node : AnimStateNode F) : AnimGraphDef F :=
  let layer := g.layers.getD li default
  let layer1 := { layer with states := layer.states ++ [node] }
  { g with layers := g.layers.set li layer1 }

/- ================================================================
   Helper lemmas (shared; none is a claim theorem).
   ================================================================ -/

/-- The wrap step of the looping time advance (C `fmodf` followed by
the negative-result correction) computes the floored modulo,
expressed through `Int.fract` of the quotient. -/
theorem loop_wrap_eq_fract {F : Type} [LinearOrderedField F] [FloorRing F]
    (x D : F) (hD : 0 < D) :
    (if fmodf x D < 0 then fmodf x D + D else fmodf x D) = D * Int.fract (x / D) := by
  have hD0 : D ≠ 0 := ne_of_gt hD
  have hx : D * (x / D) = x := by field_simp
  have hkey : x - D * (⌊x / D⌋ : F) = D * Int.fract (x / D) := by
    unfold Int.fract
    rw [mul_sub, hx]
  by_cases h : 0 ≤ x / D
  · have hf : fmodf x D = D * Int.fract (x / D) := by
      unfold fmodf fTrunc
      rw [if_pos h, hkey]
    rw [hf, if_neg (not_lt.mpr (mul_nonneg hD.le (Int.fract_nonneg _)))]
  · have hc : fTrunc (x / D) = ⌈x / D⌉ := by
      unfold fTrunc
      rw [if_neg h, Int.floor_neg, neg_neg]
    by_cases hz : Int.fract (x / D) = 0
    · have hfl : (⌊x / D⌋ : F) = x / D := by
        unfold Int.fract at hz
        linarith
      have hceq : ⌈x / D⌉ = ⌊x / D⌋ := by
        have hxd : x / D = ((⌊x / D⌋ : ℤ) : F) := hfl.symm
        rw [hxd, Int.ceil_intCast]
        exact (Int.floor_intCast _).symm
      have hf : fmodf x D = 0 := by
        unfold fmodf
        rw [hc, hceq, hkey, hz, mul_zero]
      rw [hf, if_neg (lt_irrefl 0), hz, mul_zero]
    · have hfl : (⌊x / D⌋ : F) < x / D := by
        rcases lt_or_eq_of_le (Int.floor_le (x / D)) with h1 | h1
        · exact h1
        · refine absurd ?_ hz
          have hdef : Int.fract (x / D) = x / D - (⌊x / D⌋ : F) := rfl
          rw [hdef, h1, sub_self]
      have hcf : ⌈x / D⌉ = ⌊x / D⌋ + 1 := by
        have h1 : ⌊x / D⌋ < ⌈x / D⌉ := Int.lt_ceil.mpr hfl
        have h2 : ⌈x / D⌉ ≤ ⌊x / D⌋ + 1 := Int.ceil_le_floor_add_one _
        omega
      have hf : fmodf x D = D * Int.fract (x / D) - D := by
        unfold fmodf
        rw [hc, hcf]
        push_cast
        rw [mul_add, mul_one, ← sub_sub, hkey]
      have hneg : fmodf x D < 0 := by
        rw [hf]
        have h1 : Int.fract (x / D) < 1 := Int.fract_lt_one _
        nlinarith
      rw [if_pos hneg, hf]
      ring

/-- Claim C4: during time advance in `anim_graph_update`, the state
time is incremented by `dt * speed`; for a looping state with positive
duration `D` the result is the floored modulo
`x - D * ⌊x / D⌋`, which lies in `[0, D)` (so negative speeds and
negative `dt` still land there); for a non-looping state the result is
clamped at the duration. -/
theorem C4_time_advance {F : Type} [LinearOrderedField F] [FloorRing F]
    (t dt speed D : F) :
    (0 < D →
      advance_state_time t dt speed true D =
        (t + dt * speed) - D * (⌊(t + dt * speed) / D⌋ : F) ∧
      0 ≤ advance_state_time t dt speed true D ∧
      advance_state_time t dt speed true D < D) ∧
    advance_state_time t dt speed false D = min (t + dt * speed) D := by
  constructor
  · intro hD
    have hx : D * ((t + dt * speed) / D) = t + dt * speed := by
      field_simp
    have hadv : advance_state_time t dt speed true D =
        D * Int.fract ((t + dt * speed) / D) := by
      unfold advance_state_time
      rw [if_pos ⟨rfl, hD⟩]
      exact loop_wrap_eq_fract _ _ hD
    refine ⟨?_, ?_, ?_⟩
    · rw [hadv]
      unfold Int.fract
      rw [mul_sub, hx]
    · rw [hadv]
      exact mul_nonneg hD.le (Int.fract_nonneg _)
    · rw [hadv]
      calc D * Int.fract ((t + dt * speed) / D) < D * 1 :=
            (mul_lt_mul_left hD).mpr (Int.fract_lt_one _)
        _ = D := mul_one D
  · unfold advance_state_time
    rw [if_neg (by simp)]
    rcases lt_or_le D (t + dt * speed) with h | h
    · rw [if_pos h, min_eq_right h.le]
    · rw [if_neg (not_lt.mpr h), min_eq_left h]

/-- Witness for C4 at `F = ℚ`, `t = 1/2`, `dt = -3`, `speed = 1`,
`D = 2`. -/
theorem C4_time_advance_witness :
    (0 : ℚ) < 2 ∧
    (advance_state_time (1/2 : ℚ) (-3) 1 true 2 =
        (1/2 + (-3) * 1) - 2 * ((⌊((1:ℚ)/2 + (-3) * 1) / 2⌋ : ℤ) : ℚ) ∧
      0 ≤ advance_state_time (1/2 : ℚ) (-3) 1 true 2 ∧
      advance_state_time (1/2 : ℚ) (-3) 1 true 2 < 2) ∧
    advance_state_time (1/2 : ℚ) (-3) 1 false 2 = min (1/2 + (-3) * 1) 2 :=
  ⟨by norm_num,
   (C4_time_advance (1/2 : ℚ) (-3) 1 2).1 (by norm_num),
   (C4_time_advance (1/2 : ℚ) (-3) 1 2).2⟩

/-- Claim C2: a transition whose condition list is empty never fires:
`evaluate_transition` returns `false` for every parameter assignment
and every normalized time, whatever the exit-time setting. -/
theorem C2_zero_conditions_never_fire {F : Type} [LinearOrderedField F]
    (tr : AnimTransition F) (params : AnimParamValues F)
    (state_normalized_time : F) (h : tr.conditions = []) :
    evaluate_transition tr params state_normalized_time = false := by
  rw [evaluate_transition, h]
  split
  · rfl
  · simp

/-- Witness for C2: a concrete conditionless transition over ℚ with an
exit time that has been reached. -/
theorem C2_zero_conditions_never_fire_witness :
    trQ0.conditions = [] ∧ evaluate_transition trQ0 paramsQ0 (9/10) = false :=
  ⟨rfl, C2_zero_conditions_never_fire trQ0 paramsQ0 (9/10) rfl⟩

/-- Counterexample for C5: a valid clip whose duration is zero is
returned as the effective state duration unchanged — `1.0` is not
substituted, so `get_state_duration` is not never-zero. -/
theorem C5_counterexample : get_state_duration stateQ0 modelQ0 paramsQ0 = 0 := by
  norm_num [get_state_duration, stateQ0, modelQ0, clip_duration_or_one]

/-- Claim C5 (amended): `get_state_duration` substitutes `1.0` when
the clip index is out of range of the model clip table or when a blend
space has no entries; a zero duration of a valid clip is passed
through, but every normalized-time division is guarded by
`duration > 1e-6` and falls back to 0, so the division is never taken
at a zero duration. -/
theorem C5_duration_fallbacks {F : Type} [LinearOrderedField F]
    (model : SkinnedModel F) (params : AnimParamValues F) :
    (∀ nm ci sp lo ev, model.clips.length ≤ ci →
      get_state_duration ⟨nm, .clip ci, sp, lo, ev⟩ model params = 1) ∧
    (∀ nm pi sp lo ev,
      get_state_duration ⟨nm, .blend1d ⟨[], pi⟩, sp, lo, ev⟩ model params = 1) ∧
    (∀ nm px py sp lo ev,
      get_state_duration ⟨nm, .blend2d ⟨[], px, py⟩, sp, lo, ev⟩ model params = 1) ∧
    (∀ t dur : F, dur ≤ 1 / 1000000 → normalized_time t dur = 0) := by
  refine ⟨?_, ?_, ?_, ?_⟩
  · intro nm ci sp lo ev hci
    simp [get_state_duration, clip_duration_or_one, not_lt.mpr hci]
  · intro nm pi sp lo ev
    simp [get_state_duration]
  · intro nm px py sp lo ev
    simp [get_state_duration]
  · intro t dur hd
    rw [normalized_time, if_neg (not_lt.mpr hd)]

/-- Witness for C5 (amended) at `F = ℚ` with the zero-duration-clip
model. -/
theorem C5_duration_fallbacks_witness :
    modelQ0.clips.length ≤ 3 ∧
    get_state_duration ⟨"s", .clip 3, 1, true, none⟩ modelQ0 paramsQ0 = 1 ∧
    get_state_duration ⟨"s", .blend1d ⟨[], 0⟩, 1, true, none⟩ modelQ0 paramsQ0 = 1 ∧
    get_state_duration ⟨"s", .blend2d ⟨[], 0, 1⟩, 1, true, none⟩ modelQ0 paramsQ0 = 1 ∧
    (1 : ℚ) / 2000000 ≤ 1 / 1000000 ∧
    normalized_time (5 : ℚ) (1 / 2000000) = 0 := by
  refine ⟨by norm_num [modelQ0], ?_, ?_, ?_, by norm_num, ?_⟩
  · exact (C5_duration_fallbacks modelQ0 paramsQ0).1 "s" 3 1 true none
      (by norm_num [modelQ0])
  · exact (C5_duration_fallbacks modelQ0 paramsQ0).2.1 "s" 0 1 true none
  · exact (C5_duration_fallbacks modelQ0 paramsQ0).2.2.1 "s" 0 1 1 true none
  · exact (C5_duration_fallbacks modelQ0 paramsQ0).2.2.2 5 (1 / 2000000)
      (by norm_num)

/-- Counterexample for C9: with a definition that declares no
parameters, the by-index setter at index 0 (in storage range but not a
defined parameter) still writes the parameter storage — the operation
is not a no-op. -/
theorem C9_counterexample : anim_graph_set_param_float instQ0 0 5 ≠ instQ0 := by
  intro h
  have h5 := congrArg (fun i => (i.params.values 0).f) h
  simp [anim_graph_set_param_float, ANIM_MAX_PARAMS, instQ0, paramsQ0] at h5

/-- Claim C9 (amended): the by-index parameter setters are silent
no-ops exactly for indices at or above the storage bound
`ANIM_MAX_PARAMS` (not for indices merely beyond the defined
parameter count), and the by-name setters are silent no-ops whenever
the name matches no defined parameter; in those cases the whole
instance is unchanged. -/
theorem C9_setter_noop {F : Type} [LinearOrderedField F]
    (inst : AnimGraphInstance F) (idx : ℕ) (v : F) (b : Bool) (name : String)
    (hidx : ANIM_MAX_PARAMS ≤ idx)
    (hname : anim_graph_def_find_param inst.graph name = -1) :
    anim_graph_set_param_float inst idx v = inst ∧
    anim_graph_set_param_bool inst idx b = inst ∧
    anim_graph_set_param_float_by_name inst name v = inst ∧
    anim_graph_set_param_bool_by_name inst name b = inst := by
  refine ⟨?_, ?_, ?_, ?_⟩
  · rw [anim_graph_set_param_float, if_neg (not_lt.mpr hidx)]
  · rw [anim_graph_set_param_bool, if_neg (not_lt.mpr hidx)]
  · rw [anim_graph_set_param_float_by_name]
    simp only [hname]
    norm_num
  · rw [anim_graph_set_param_bool_by_name]
    simp only [hname]
    norm_num

/-- Witness for C9 (amended) over ℚ: index 16 and a name unknown to a
parameterless definition. -/
theorem C9_setter_noop_witness :
    ANIM_MAX_PARAMS ≤ 16 ∧
    anim_graph_def_find_param instQ0.graph "turn" = -1 ∧
    anim_graph_set_param_float instQ0 16 (7/2) = instQ0 ∧
    anim_graph_set_param_bool instQ0 16 true = instQ0 ∧
    anim_graph_set_param_float_by_name instQ0 "turn" (7/2) = instQ0 ∧
    anim_graph_set_param_bool_by_name instQ0 "turn" true = instQ0 := by
  have hname : anim_graph_def_find_param instQ0.graph "turn" = -1 := by
    simp [anim_graph_def_find_param, instQ0]
  have h := C9_setter_noop instQ0 16 (7/2) true "turn" (by norm_num [ANIM_MAX_PARAMS]) hname
  exact ⟨by norm_num [ANIM_MAX_PARAMS], hname, h.1, h.2.1, h.2.2.1, h.2.2.2⟩

/-- Claim C10: with a valid layer index and room in the state array,
`anim_graph_def_add_state_blend1d` with more than 8 entries and
`anim_graph_def_add_state_blend2d` with more than 16 entries silently
truncate the input to the first 8 (respectively 16) entries (the 1-D
entries additionally insertion-sorted by position) and still return
the non-negative index of the appended state; oversize blend-space
input is never rejected with the `-1` sentinel. -/
theorem C10_blend_truncation {F : Type} [LinearOrderedField F]
    (g : AnimGraphDef F) (li : ℕ) (nm1 nm2 : String)
    (entries1 : List (BlendSpace1DEntry F)) (ec1 : ℕ) (pi : ℕ) (sp1 : F) (lo1 : Bool)
    (entries2 : List (BlendSpace2DEntry F)) (ec2 : ℕ) (px py : ℕ) (sp2 : F) (lo2 : Bool)
    (hli : li < g.layers.length)
    (hcap : (g.layers.getD li default).states.length < ANIM_MAX_STATES_PER_LAYER)
    (h1 : ANIM_BLEND1D_MAX_CLIPS < ec1) (h2 : ANIM_BLEND2D_MAX_CLIPS < ec2) :
    (anim_graph_def_add_state_blend1d g li nm1 entries1 ec1 pi sp1 lo1 =
      (append_state g li ⟨strncpy31 nm1,
         .blend1d ⟨sort_entries_1d (entries1.take ANIM_BLEND1D_MAX_CLIPS), pi⟩,
         sp1, lo1, none⟩,
       ((g.layers.getD li default).states.length : ℤ)) ∧
     0 ≤ (anim_graph_def_add_state_blend1d g li nm1 entries1 ec1 pi sp1 lo1).2) ∧
    (anim_graph_def_add_state_blend2d g li nm2 entries2 ec2 px py sp2 lo2 =
      (append_state g li ⟨strncpy31 nm2,
         .blend2d ⟨entries2.take ANIM_BLEND2D_MAX_CLIPS, px, py⟩,
         sp2, lo2, none⟩,
       ((g.layers.getD li default).states.length : ℤ)) ∧
     0 ≤ (anim_graph_def_add_state_blend2d g li nm2 entries2 ec2 px py sp2 lo2).2) := by
  have e1 : anim_graph_def_add_state_blend1d g li nm1 entries1 ec1 pi sp1 lo1 =
      (append_state g li ⟨strncpy31 nm1,
         .blend1d ⟨sort_entries_1d (entries1.take ANIM_BLEND1D_MAX_CLIPS), pi⟩,
         sp1, lo1, none⟩,
       ((g.layers.getD li default).states.length : ℤ)) := by
    rw [anim_graph_def_add_state_blend1d, if_pos hli, if_pos hcap, if_pos h1]
    rfl
  have e2 : anim_graph_def_add_state_blend2d g li nm2 entries2 ec2 px py sp2 lo2 =
      (append_state g li ⟨strncpy31 nm2,
         .blend2d ⟨entries2.take ANIM_BLEND2D_MAX_CLIPS, px, py⟩,
         sp2, lo2, none⟩,
       ((g.layers.getD li default).states.length : ℤ)) := by
    rw [anim_graph_def_add_state_blend2d, if_pos hli, if_pos hcap, if_pos h2]
    rfl
  refine ⟨⟨e1, ?_⟩, ⟨e2, ?_⟩⟩
  · rw [e1]
    exact Int.ofNat_nonneg _
  · rw [e2]
    exact Int.ofNat_nonneg _

/-- Witness for C10 over ℚ: one empty layer, 9 one-dimensional entries
and 17 two-dimensional entries. -/
theorem C10_blend_truncation_witness :
    0 < graphQ1.layers.length ∧
    (graphQ1.layers.getD 0 default).states.length < ANIM_MAX_STATES_PER_LAYER ∧
    ANIM_BLEND1D_MAX_CLIPS < 9 ∧ ANIM_BLEND2D_MAX_CLIPS < 17 ∧
    0 ≤ (anim_graph_def_add_state_blend1d graphQ1 0 "b1" entries1dQ 9 0 1 true).2 ∧
    0 ≤ (anim_graph_def_add_state_blend2d graphQ1 0 "b2" entries2dQ 17 0 1 1 true).2 := by
  have hli : 0 < graphQ1.layers.length := by norm_num [graphQ1]
  have hcap : (graphQ1.layers.getD 0 default).states.length < ANIM_MAX_STATES_PER_LAYER := by
    norm_num [graphQ1, ANIM_MAX_STATES_PER_LAYER]
  have h1 : ANIM_BLEND1D_MAX_CLIPS < 9 := by norm_num [ANIM_BLEND1D_MAX_CLIPS]
  have h2 : ANIM_BLEND2D_MAX_CLIPS < 17 := by norm_num [ANIM_BLEND2D_MAX_CLIPS]
  have h := C10_blend_truncation graphQ1 0 "b1" "b2" entries1dQ 9 0 1 true
    entries2dQ 17 0 1 1 true hli hcap h1 h2
  exact ⟨hli, hcap, h1, h2, h.1.2, h.2.2⟩

/-- Negating the right argument negates the quaternion dot product. -/
theorem quat_dot_neg_right (a b : Quat ℝ) :
    quat_dot a (quat_neg b) = -quat_dot a b := by
  unfold quat_dot quat_neg
  ring

/-- Double negation of a quaternion. -/
theorem quat_neg_neg (q : Quat ℝ) : quat_neg (quat_neg q) = q := by
  unfold quat_neg
  ext <;> dsimp <;> ring

/-- Negating both arguments preserves the quaternion dot product. -/
theorem quat_dot_neg_neg (q : Quat ℝ) :
    quat_dot (quat_neg q) (quat_neg q) = quat_dot q q := by
  unfold quat_dot quat_neg
  ring

/-- `glm_quat_slerp` between equal unit quaternions is the identity at
every factor (the early out-of-range-cosine branch). -/
theorem glm_quat_slerp_self (q : Quat ℝ) (hq : quat_dot q q = 1) (t : ℝ) :
    glm_quat_slerp q q t = q := by
  simp [glm_quat_slerp, hq]

/-- `glm_quat_slerp` at factor 0 returns the first argument whenever
the dot product is nonnegative (as the caller in `pose_blend`
guarantees after shortest-path correction). -/
theorem glm_quat_slerp_zero (qa qb : Quat ℝ) (h : 0 ≤ quat_dot qa qb) :
    glm_quat_slerp qa qb 0 = qa := by
  unfold glm_quat_slerp
  by_cases h1 : (1 : ℝ) ≤ |quat_dot qa qb|
  · simp only [if_pos h1]
  · simp only [if_neg h1, if_neg (not_lt.mpr h)]
    by_cases h2 : |Real.sqrt (1 - quat_dot qa qb * quat_dot qa qb)| < 1 / 1000
    · simp only [if_pos h2]
      unfold glm_quat_lerp
      ext <;> dsimp <;> ring
    · simp only [if_neg h2]
      have hne : Real.sqrt (1 - quat_dot qa qb * quat_dot qa qb) ≠ 0 :=
        fun h0 => h2 (by rw [h0]; norm_num)
      rw [show ((1 : ℝ) - 0) = 1 from by norm_num, one_mul, zero_mul,
        Real.sin_zero, Real.sin_arccos,
        show (1 - (quat_dot qa qb) ^ 2 : ℝ) = 1 - quat_dot qa qb * quat_dot qa qb from by ring]
      ext <;> (dsimp [quat_scale, quat_add]; field_simp)

/-- `glm_quat_slerp` at factor 1 returns the second argument for unit
quaternions with nonnegative dot product. -/
theorem glm_quat_slerp_one_unit (qa qb : Quat ℝ) (h : 0 ≤ quat_dot qa qb)
    (ha : quat_dot qa qa = 1) (hb : quat_dot qb qb = 1) :
    glm_quat_slerp qa qb 1 = qb := by
  by_cases h1 : (1 : ℝ) ≤ |quat_dot qa qb|
  · have h1' : (1 : ℝ) ≤ quat_dot qa qb := by rwa [abs_of_nonneg h] at h1
    have heq : qa = qb := by
      have hsum : (qa.x - qb.x) ^ 2 + (qa.y - qb.y) ^ 2 + (qa.z - qb.z) ^ 2 +
          (qa.w - qb.w) ^ 2 = 0 := by
        unfold quat_dot at h1' ha hb
        nlinarith [sq_nonneg (qa.x - qb.x), sq_nonneg (qa.y - qb.y),
          sq_nonneg (qa.z - qb.z), sq_nonneg (qa.w - qb.w)]
      have hx : (qa.x - qb.x) ^ 2 = 0 := by
        nlinarith [sq_nonneg (qa.y - qb.y), sq_nonneg (qa.z - qb.z), sq_nonneg (qa.w - qb.w)]
      have hy : (qa.y - qb.y) ^ 2 = 0 := by
        nlinarith [sq_nonneg (qa.x - qb.x), sq_nonneg (qa.z - qb.z), sq_nonneg (qa.w - qb.w)]
      have hz : (qa.z - qb.z) ^ 2 = 0 := by
        nlinarith [sq_nonneg (qa.x - qb.x), sq_nonneg (qa.y - qb.y), sq_nonneg (qa.w - qb.w)]
      have hw : (qa.w - qb.w) ^ 2 = 0 := by
        nlinarith [sq_nonneg (qa.x - qb.x), sq_nonneg (qa.y - qb.y), sq_nonneg (qa.z - qb.z)]
      ext
      · linarith [sub_eq_zero.mp ((sq_eq_zero_iff).mp hx)]
      · linarith [sub_eq_zero.mp ((sq_eq_zero_iff).mp hy)]
      · linarith [sub_eq_zero.mp ((sq_eq_zero_iff).mp hz)]
      · linarith [sub_eq_zero.mp ((sq_eq_zero_iff).mp hw)]
    rw [heq]
    exact glm_quat_slerp_self qb hb 1
  · unfold glm_quat_slerp
    simp only [if_neg h1, if_neg (not_lt.mpr h)]
    by_cases h2 : |Real.sqrt (1 - quat_dot qa qb * quat_dot qa qb)| < 1 / 1000
    · simp only [if_pos h2]
      unfold glm_quat_lerp
      ext <;> dsimp <;> ring
    · simp only [if_neg h2]
      have hne : Real.sqrt (1 - quat_dot qa qb * quat_dot qa qb) ≠ 0 :=
        fun h0 => h2 (by rw [h0]; norm_num)
      rw [show ((1 : ℝ) - 1) = 0 from by norm_num, zero_mul, Real.sin_zero, one_mul,
        Real.sin_arccos,
        show (1 - (quat_dot qa qb) ^ 2 : ℝ) = 1 - quat_dot qa qb * quat_dot qa qb from by ring]
      ext <;> (dsimp [quat_scale, quat_add]; field_simp)

/-- The rotation path of `pose_blend` at factor 0 returns the first
rotation exactly (for arbitrary quaternions). -/
theorem blend_rotation_zero (qa qb0 : Quat ℝ) : blend_rotation qa qb0 0 = qa := by
  unfold blend_rotation
  by_cases hd : quat_dot qa qb0 < 0
  · simp only [if_pos hd]
    exact glm_quat_slerp_zero qa (quat_neg qb0)
      (by rw [quat_dot_neg_right]; linarith)
  · simp only [if_neg hd]
    exact glm_quat_slerp_zero qa qb0 (not_lt.mp hd)

/-- The rotation path of `pose_blend` at factor 1 returns the second
rotation up to the shortest-path sign, for unit quaternions. -/
theorem blend_rotation_one_unit (qa qb0 : Quat ℝ)
    (ha : quat_dot qa qa = 1) (hb : quat_dot qb0 qb0 = 1) :
    blend_rotation qa qb0 1 =
      (if 0 ≤ quat_dot qa qb0 then qb0 else quat_neg qb0) := by
  unfold blend_rotation
  by_cases hd : quat_dot qa qb0 < 0
  · rw [if_neg (not_le.mpr hd)]
    simp only [if_pos hd]
    exact glm_quat_slerp_one_unit qa (quat_neg qb0)
      (by rw [quat_dot_neg_right]; linarith) ha (by rw [quat_dot_neg_neg]; exact hb)
  · rw [if_pos (not_lt.mp hd)]
    simp only [if_neg hd]
    exact glm_quat_slerp_one_unit qa qb0 (not_lt.mp hd) ha hb

/-- Counterexample for C6: for poses with antipodal unit rotations
(`(0,0,0,1)` against `(0,0,0,-1)`), `pose_blend` at factor 1 yields
the shortest-path-corrected rotation, whose `w` component differs from
the second input by 2 — far beyond the claimed `1e-5` componentwise
tolerance. -/
theorem C6_counterexample :
    ¬ (|((pose_blend poseA poseB 1 1 zeroPose).rotations 0).w -
        (poseB.rotations 0).w| < 1 / 100000) := by
  have hw : ((pose_blend poseA poseB 1 1 zeroPose).rotations 0).w = 1 := by
    norm_num [pose_blend, blend_rotation, quat_dot, quat_neg, glm_quat_slerp,
      poseA, poseB]
  rw [hw]
  norm_num [poseB]

/-- Claim C6 (amended): for joints below the joint count,
`pose_blend` at factor 0 equals the first pose exactly in every
component; at factor 1 translations and scales equal the second pose
exactly and, when both rotations are unit quaternions, the rotation
equals the second rotation up to the shortest-path sign — equal when
the rotation dot product is nonnegative and its negation otherwise
(so componentwise agreement with `b` within `1e-5` fails for
antipodal rotations). -/
theorem C6_blend_endpoints (a b out : AnimPose ℝ) (jc j : ℕ) (hj : j < jc)
    (ha : quat_dot (a.rotations j) (a.rotations j) = 1)
    (hb : quat_dot (b.rotations j) (b.rotations j) = 1) :
    ((pose_blend a b jc 0 out).translations j = a.translations j ∧
     (pose_blend a b jc 0 out).rotations j = a.rotations j ∧
     (pose_blend a b jc 0 out).scales j = a.scales j) ∧
    ((pose_blend a b jc 1 out).translations j = b.translations j ∧
     (pose_blend a b jc 1 out).scales j = b.scales j ∧
     (pose_blend a b jc 1 out).rotations j =
       (if 0 ≤ quat_dot (a.rotations j) (b.rotations j) then b.rotations j
        else quat_neg (b.rotations j))) := by
  refine ⟨⟨?_, ?_, ?_⟩, ⟨?_, ?_, ?_⟩⟩
  · simp only [pose_blend]
    rw [if_pos hj]
    unfold vec3_blend
    ext <;> dsimp <;> ring
  · simp only [pose_blend]
    rw [if_pos hj]
    exact blend_rotation_zero _ _
  · simp only [pose_blend]
    rw [if_pos hj]
    unfold vec3_blend
    ext <;> dsimp <;> ring
  · simp only [pose_blend]
    rw [if_pos hj]
    unfold vec3_blend
    ext <;> dsimp <;> ring
  · simp only [pose_blend]
    rw [if_pos hj]
    unfold vec3_blend
    ext <;> dsimp <;> ring
  · simp only [pose_blend]
    rw [if_pos hj]
    exact blend_rotation_one_unit _ _ ha hb

/-- Witness for C6 (amended) at the concrete antipodal unit poses. -/
theorem C6_blend_endpoints_witness :
    (0 < 1 ∧
     quat_dot (poseA.rotations 0) (poseA.rotations 0) = 1 ∧
     quat_dot (poseB.rotations 0) (poseB.rotations 0) = 1) ∧
    ((pose_blend poseA poseB 1 0 zeroPose).translations 0 = poseA.translations 0 ∧
     (pose_blend poseA poseB 1 0 zeroPose).rotations 0 = poseA.rotations 0 ∧
     (pose_blend poseA poseB 1 0 zeroPose).scales 0 = poseA.scales 0) ∧
    ((pose_blend poseA poseB 1 1 zeroPose).translations 0 = poseB.translations 0 ∧
     (pose_blend poseA poseB 1 1 zeroPose).scales 0 = poseB.scales 0 ∧
     (pose_blend poseA poseB 1 1 zeroPose).rotations 0 =
       (if 0 ≤ quat_dot (poseA.rotations 0) (poseB.rotations 0) then poseB.rotations 0
        else quat_neg (poseB.rotations 0))) := by
  have ha : quat_dot (poseA.rotations 0) (poseA.rotations 0) = 1 := by
    norm_num [quat_dot, poseA]
  have hb : quat_dot (poseB.rotations 0) (poseB.rotations 0) = 1 := by
    norm_num [quat_dot, poseB]
  have h := C6_blend_endpoints poseA poseB zeroPose 1 0 (by norm_num) ha hb
  exact ⟨⟨by norm_num, ha, hb⟩, h.1, h.2⟩

/-- Claim C7: blending a pose whose rotation at a joint is the unit
quaternion `q` with a pose whose rotation there is `-q` yields
rotation `q` at every blend factor — the shortest-path negation before
the slerp prevents any drift toward the identity. -/
theorem C7_antipodal_blend (a b out : AnimPose ℝ) (jc j : ℕ) (q : Quat ℝ)
    (f : ℝ) (hj : j < jc) (hq : quat_dot q q = 1)
    (ha : a.rotations j = q) (hb : b.rotations j = quat_neg q) :
    (pose_blend a b jc f out).rotations j = q := by
  simp only [pose_blend]
  rw [if_pos hj, ha, hb]
  unfold blend_rotation
  have hd : quat_dot q (quat_neg q) < 0 := by
    rw [quat_dot_neg_right, hq]
    norm_num
  simp only [if_pos hd, quat_neg_neg]
  exact glm_quat_slerp_self q hq f

/-- Witness for C7 at `q = (0,0,0,1)`, factor `37/100`. -/
theorem C7_antipodal_blend_witness :
    (0 < 1 ∧ quat_dot ⟨0, 0, 0, 1⟩ ⟨0, 0, 0, 1⟩ = (1 : ℝ) ∧
     poseA.rotations 0 = (⟨0, 0, 0, 1⟩ : Quat ℝ) ∧
     poseB.rotations 0 = quat_neg ⟨0, 0, 0, 1⟩) ∧
    (pose_blend poseA poseB 1 (37/100) zeroPose).rotations 0 = ⟨0, 0, 0, 1⟩ := by
  have hq : quat_dot (⟨0, 0, 0, 1⟩ : Quat ℝ) ⟨0, 0, 0, 1⟩ = 1 := by
    norm_num [quat_dot]
  have ha : poseA.rotations 0 = (⟨0, 0, 0, 1⟩ : Quat ℝ) := rfl
  have hb : poseB.rotations 0 = quat_neg ⟨0, 0, 0, 1⟩ := by
    ext <;> norm_num [poseB, quat_neg]
  exact ⟨⟨by norm_num, hq, ha, hb⟩,
    C7_antipodal_blend poseA poseB zeroPose 1 0 ⟨0, 0, 0, 1⟩ (37/100)
      (by norm_num) hq ha hb⟩

/-- Counterexample for C1: a looping clip state of duration `D = 2` at
`state_time = 1/2` advanced by exactly `1 * D` in a single
`anim_graph_update`.  The state time wraps back to exactly `1/2`, the
crossing interval `(prev, curr]` is empty, and the event at time 1 —
which the full cycle crossed once — produces no callback invocation:
the trace length is 0, not `k = 1`. -/
theorem C1_counterexample :
    ¬ ((anim_graph_update instR0 modelR0 2 arenaBig).2.2.length = 1) := by
  have h : (anim_graph_update instR0 modelR0 2 arenaBig).2.2 = [] := by
    norm_num [anim_graph_update, instR0, graphR0, arenaBig, alloc_layer_poses,
      arena_alloc, sizeofAnimPose, anim_update_layers, anim_update_layer, layerR0,
      lsR0, stateR0, modelR0, get_state_duration, clip_duration_or_one,
      normalized_time, advance_state_time, fmodf, fTrunc, evaluate_state,
      fire_events, evtsR, List.filter, paramsR0]
  rw [h]
  norm_num

/-- Claim C1 (amended): a single `anim_graph_update` fires each event
at most once.  An advance whose total is exactly `k * D` (integer
`k > 0`) from `state_time ∈ [0, D)` wraps the state time back to its
previous value and fires no events at all (not `k` times).  In the
wrapped case (`curr < prev`) the fired list is exactly the event list
filtered by membership in `(prev, duration] ∪ [0, curr]` (for events
whose times lie in `[0, duration]`), taken in list order, which is
ascending time order for a sorted event list. -/
theorem C1_wrap_event_firing {F : Type} [LinearOrderedField F] [FloorRing F]
    (st D dt speed : F) (k : ℕ) (l : List (AnimEvent F)) (prev curr dur : F)
    (hst0 : 0 ≤ st) (hstD : st < D) (hk : 0 < k) (hadv : dt * speed = (k : F) * D)
    (hwrap : curr < prev) :
    (advance_state_time st dt speed true D = st ∧
     fire_events (some ⟨l⟩) true st st D true = []) ∧
    (fire_events (some ⟨l⟩) true prev curr dur true =
       (l.filter (fun e => decide (prev < e.time ∨ e.time ≤ curr))).map
         (fun e => (e.event_id, e.name)) ∧
     (∀ e ∈ l, 0 ≤ e.time → e.time ≤ dur →
        ((prev < e.time ∨ e.time ≤ curr) ↔
          ((prev < e.time ∧ e.time ≤ dur) ∨ (0 ≤ e.time ∧ e.time ≤ curr)))) ∧
     (List.Sorted (fun a b : AnimEvent F => a.time ≤ b.time) l →
        List.Sorted (fun a b : AnimEvent F => a.time ≤ b.time)
          (l.filter (fun e => decide (prev < e.time ∨ e.time ≤ curr))))) := by
  have hD : 0 < D := lt_of_le_of_lt hst0 hstD
  refine ⟨⟨?_, ?_⟩, ?_, ?_, ?_⟩
  · unfold advance_state_time
    rw [if_pos ⟨rfl, hD⟩, hadv, loop_wrap_eq_fract _ _ hD]
    have hq : (st + (k : F) * D) / D = st / D + (k : F) := by
      field_simp
    rw [hq]
    have hfr : Int.fract (st / D + (k : F)) = Int.fract (st / D) := by
      exact_mod_cast Int.fract_add_nat (st / D) k
    rw [hfr, Int.fract_eq_self.mpr ⟨div_nonneg hst0 hD.le, (div_lt_one hD).mpr hstD⟩]
    field_simp
  · rw [fire_events]
    by_cases hl : l.length = 0
    · simp [hl]
    · rw [if_neg (by simp [hl]), if_pos (Or.inr le_rfl)]
      have : ∀ e ∈ l, ¬ (decide (st < e.time ∧ e.time ≤ st) = true) := by
        intro e _ hdec
        have h2 := of_decide_eq_true hdec
        exact absurd (lt_of_lt_of_le h2.1 h2.2) (lt_irrefl _)
      simp only [List.filter_eq_nil_iff.mpr this, List.map_nil]
  · rw [fire_events]
    by_cases hl : l.length = 0
    · have hnil : l = [] := List.length_eq_zero.mp hl
      simp [hnil]
    · rw [if_neg (by simp [hl]), if_neg (by simp [not_le.mpr hwrap])]
  · intro e _ h0 hd
    constructor
    · rintro (h | h)
      · exact Or.inl ⟨h, hd⟩
      · exact Or.inr ⟨h0, h⟩
    · rintro (⟨h, _⟩ | ⟨_, h⟩)
      · exact Or.inl h
      · exact Or.inr h
  · intro hs
    exact List.Pairwise.sublist (List.filter_sublist l) hs

/-- Witness for C1 (amended) over ℚ: duration 2, start `1/2`, one full
cycle (`k = 1`), one event at time 1; wrapped-case instance with
`prev = 3/2`, `curr = 1/2`. -/
theorem C1_wrap_event_firing_witness :
    ((0 : ℚ) ≤ 1/2 ∧ (1/2 : ℚ) < 2 ∧ 0 < 1 ∧ (2 : ℚ) * 1 = (1 : ℕ) * 2 ∧
      (1/2 : ℚ) < 3/2) ∧
    (advance_state_time (1/2 : ℚ) 2 1 true 2 = 1/2 ∧
     fire_events (some ⟨evtsQ.events⟩) true (1/2 : ℚ) (1/2) 2 true = []) ∧
    (fire_events (some ⟨evtsQ.events⟩) true (3/2 : ℚ) (1/2) 2 true =
       (evtsQ.events.filter (fun e => decide ((3/2 : ℚ) < e.time ∨ e.time ≤ 1/2))).map
         (fun e => (e.event_id, e.name))) := by
  have h := C1_wrap_event_firing (1/2 : ℚ) 2 2 1 1 evtsQ.events (3/2) (1/2) 2
    (by norm_num) (by norm_num) (by norm_num) (by norm_num) (by norm_num)
  exact ⟨⟨by norm_num, by norm_num, by norm_num, by norm_num, by norm_num⟩,
    h.1, h.2.1⟩

/-- `arena_alloc` preserves the capacity. -/
theorem arena_alloc_capacity (a : Arena) (s : ℕ) :
    ((arena_alloc a s).2).capacity = a.capacity := by
  unfold arena_alloc
  split <;> rfl

/-- `arena_alloc` advances the offset by at most the requested size. -/
theorem arena_alloc_offset_le (a : Arena) (s : ℕ) :
    (arena_alloc a s).2.offset ≤ a.offset + s := by
  unfold arena_alloc
  split
  · exact le_rfl
  · exact Nat.le_add_right _ _

/-- `arena_alloc` succeeds when the arena has room. -/
theorem arena_alloc_true (a : Arena) (s : ℕ) (h : a.offset + s ≤ a.capacity) :
    arena_alloc a s = (true, ⟨a.capacity, a.offset + s⟩) := by
  unfold arena_alloc
  rw [if_pos h]

/-- Capacity preservation through two chained allocations. -/
theorem alloc2_capacity (a : Arena) (s1 s2 : ℕ) :
    ((arena_alloc (arena_alloc a s1).2 s2).2).capacity = a.capacity := by
  rw [arena_alloc_capacity, arena_alloc_capacity]

/-- Offset bound through two chained allocations. -/
theorem alloc2_offset (a : Arena) (s1 s2 : ℕ) :
    ((arena_alloc (arena_alloc a s1).2 s2).2).offset ≤ a.offset + s1 + s2 := by
  calc ((arena_alloc (arena_alloc a s1).2 s2).2).offset
      ≤ (arena_alloc a s1).2.offset + s2 := arena_alloc_offset_le _ _
    _ ≤ a.offset + s1 + s2 := by
        have := arena_alloc_offset_le a s1
        omega

/-- Capacity preservation through four chained allocations. -/
theorem alloc4_capacity (a : Arena) (s1 s2 s3 s4 : ℕ) :
    ((arena_alloc (arena_alloc (arena_alloc (arena_alloc a s1).2 s2).2 s3).2 s4).2).capacity
      = a.capacity := by
  rw [arena_alloc_capacity, arena_alloc_capacity, arena_alloc_capacity, arena_alloc_capacity]

/-- Offset bound through four chained allocations. -/
theorem alloc4_offset (a : Arena) (s1 s2 s3 s4 : ℕ) :
    ((arena_alloc (arena_alloc (arena_alloc (arena_alloc a s1).2 s2).2 s3).2 s4).2).offset
      ≤ a.offset + s1 + s2 + s3 + s4 := by
  calc ((arena_alloc (arena_alloc (arena_alloc (arena_alloc a s1).2 s2).2 s3).2 s4).2).offset
      ≤ ((arena_alloc (arena_alloc (arena_alloc a s1).2 s2).2 s3).2).offset + s4 :=
        arena_alloc_offset_le _ _
    _ ≤ ((arena_alloc (arena_alloc a s1).2 s2).2).offset + s3 + s4 := by
        have := arena_alloc_offset_le (arena_alloc (arena_alloc a s1).2 s2).2 s3
        omega
    _ ≤ a.offset + s1 + s2 + s3 + s4 := by
        have := alloc2_offset a s1 s2
        omega

/-- The 1-D blend-space evaluator allocates at most two scratch poses
and preserves the arena capacity. -/
theorem blend_space_1d_evaluate_arena (space : BlendSpace1D ℝ) (pv : ℝ)
    (model : SkinnedModel ℝ) (nt : ℝ) (ar : Arena) (out : AnimPose ℝ) :
    (blend_space_1d_evaluate space pv model nt ar out).2.capacity = ar.capacity ∧
    (blend_space_1d_evaluate space pv model nt ar out).2.offset
      ≤ ar.offset + 2 * sizeofAnimPose := by
  unfold blend_space_1d_evaluate
  dsimp only
  split_ifs <;>
    first
      | exact ⟨rfl, Nat.le_add_right _ _⟩
      | exact ⟨alloc2_capacity ar _ _, by
          show (arena_alloc (arena_alloc ar sizeofAnimPose).2 sizeofAnimPose).2.offset
            ≤ ar.offset + 2 * sizeofAnimPose
          have := alloc2_offset ar sizeofAnimPose sizeofAnimPose
          omega⟩

/-- The 2-D blend-space evaluator allocates at most four scratch poses
and preserves the arena capacity. -/
theorem blend_space_2d_evaluate_arena (space : BlendSpace2D ℝ) (px py : ℝ)
    (model : SkinnedModel ℝ) (nt : ℝ) (ar : Arena) (out : AnimPose ℝ) :
    (blend_space_2d_evaluate space px py model nt ar out).2.capacity = ar.capacity ∧
    (blend_space_2d_evaluate space px py model nt ar out).2.offset
      ≤ ar.offset + 4 * sizeofAnimPose := by
  unfold blend_space_2d_evaluate
  dsimp only
  by_cases h0 : space.entries.length = 0
  · rw [if_pos h0]
    exact ⟨rfl, Nat.le_add_right _ _⟩
  · rw [if_neg h0]
    by_cases h1 : space.entries.length = 1
    · rw [if_pos h1]
      exact ⟨rfl, Nat.le_add_right _ _⟩
    · rw [if_neg h1]
      by_cases h2 : space.entries.length = 2
      · rw [if_pos h2]
        split_ifs <;>
          exact ⟨alloc2_capacity ar _ _, by
            show (arena_alloc (arena_alloc ar sizeofAnimPose).2 sizeofAnimPose).2.offset
              ≤ ar.offset + 4 * sizeofAnimPose
            have := alloc2_offset ar sizeofAnimPose sizeofAnimPose
            omega⟩
      · rw [if_neg h2]
        have hcap4 := alloc4_capacity ar sizeofAnimPose sizeofAnimPose sizeofAnimPose sizeofAnimPose
        have hoff4 := alloc4_offset ar sizeofAnimPose sizeofAnimPose sizeofAnimPose sizeofAnimPose
        have hgen : ∀ (c : Prop) (inst : Decidable c) (p q : AnimPose ℝ) (A : Arena),
            (@ite _ c inst (p, A) (q, A)).2 = A := by
          intro c inst p q A
          split <;> rfl
        constructor
        · split
          · exact hcap4
          · rw [hgen]
            exact hcap4
        · split
          · show (arena_alloc (arena_alloc (arena_alloc (arena_alloc ar sizeofAnimPose).2
                sizeofAnimPose).2 sizeofAnimPose).2 sizeofAnimPose).2.offset
              ≤ ar.offset + 4 * sizeofAnimPose
            omega
          · rw [hgen]
            omega

/-- `evaluate_state` allocates at most four scratch poses and
preserves the arena capacity. -/
theorem evaluate_state_arena (s : AnimStateNode ℝ) (model : SkinnedModel ℝ)
    (params : AnimParamValues ℝ) (t : ℝ) (ar : Arena) (out : AnimPose ℝ) :
    (evaluate_state s model params t ar out).2.capacity = ar.capacity ∧
    (evaluate_state s model params t ar out).2.offset ≤ ar.offset + 4 * sizeofAnimPose := by
  unfold evaluate_state
  rcases s with ⟨nm, d, sp, lo, ev⟩
  cases d with
  | clip ci =>
    dsimp only
    split_ifs <;> exact ⟨rfl, Nat.le_add_right _ _⟩
  | blend1d bs =>
    dsimp only
    have h := blend_space_1d_evaluate_arena bs
      (params.values bs.param_index).f model
      (normalized_time t (get_state_duration ⟨nm, .blend1d bs, sp, lo, ev⟩ model params))
      ar out
    exact ⟨h.1, by omega⟩
  | blend2d bs =>
    dsimp only
    exact blend_space_2d_evaluate_arena bs
      (params.values bs.param_x_index).f (params.values bs.param_y_index).f model
      (normalized_time t (get_state_duration ⟨nm, .blend2d bs, sp, lo, ev⟩ model params))
      ar out

/-- The clamped crossfade factor is nonnegative for nonnegative
elapsed time. -/
theorem transition_blend_factor_nonneg (e d : ℝ) (he : 0 ≤ e) :
    0 ≤ transition_blend_factor e d := by
  unfold transition_blend_factor
  dsimp only
  by_cases hc : (1 : ℝ) / 1000000 < d
  · have hd : (0 : ℝ) < d := lt_trans (by norm_num) hc
    have hdiv : 0 ≤ e / d := div_nonneg he hd.le
    simp only [if_pos hc]
    split_ifs <;> linarith
  · simp only [if_neg hc]
    split_ifs <;> norm_num

/-- The clamped crossfade factor never exceeds 1. -/
theorem transition_blend_factor_le_one (e d : ℝ) :
    transition_blend_factor e d ≤ 1 := by
  unfold transition_blend_factor
  dsimp only
  by_cases hc : (1 : ℝ) / 1000000 < d
  · simp only [if_pos hc]
    split_ifs <;> linarith
  · simp only [if_neg hc]
    split_ifs <;> norm_num

/-- The clamped crossfade factor is monotone in the elapsed time. -/
theorem transition_blend_factor_mono (e1 e2 d : ℝ) (h : e1 ≤ e2) :
    transition_blend_factor e1 d ≤ transition_blend_factor e2 d := by
  unfold transition_blend_factor
  dsimp only
  by_cases hc : (1 : ℝ) / 1000000 < d
  · have hd : (0 : ℝ) < d := lt_trans (by norm_num) hc
    have hdiv : e1 / d ≤ e2 / d := div_le_div_of_nonneg_right h hd.le
    simp only [if_pos hc]
    split_ifs <;> linarith
  · simp only [if_neg hc]
    split_ifs <;> norm_num

/-- The clamped crossfade factor equals 1 exactly when the raw ternary
factor has reached 1. -/
theorem transition_blend_factor_eq_one_iff (e d : ℝ) :
    transition_blend_factor e d = 1 ↔
      1 ≤ (if (1 : ℝ) / 1000000 < d then e / d else 1) := by
  unfold transition_blend_factor
  dsimp only
  split_ifs with h1 h2 <;> constructor <;> intro hh <;>
    first
      | rfl
      | assumption
      | linarith

/-- Characterization of the crossfade bookkeeping of one per-layer
update step: while transitioning (so that transition selection is
skipped) and with enough scratch room for every allocation of the
step, the elapsed time advances by exactly `dt`, the transition
duration is unchanged, and the transitioning flag is cleared exactly
when the raw factor reaches 1. -/
theorem anim_update_layer_crossfade_fields
    (layer_def : AnimLayerDef ℝ) (ls : AnimLayerState ℝ)
    (params : AnimParamValues ℝ) (model : SkinnedModel ℝ) (dt : ℝ) (cb : Bool)
    (ar : Arena)
    (hstates : ¬ layer_def.states.length = 0)
    (htr : ls.transitioning = true)
    (hcap : ar.offset + 10 * sizeofAnimPose ≤ ar.capacity) :
    (anim_update_layer layer_def ls params model dt cb ar).ls.transition_elapsed
        = ls.transition_elapsed + dt ∧
    (anim_update_layer layer_def ls params model dt cb ar).ls.transition_duration
        = ls.transition_duration ∧
    ((anim_update_layer layer_def ls params model dt cb ar).ls.transitioning = false ↔
      1 ≤ (if (1 : ℝ) / 1000000 < ls.transition_duration then
        (ls.transition_elapsed + dt) / ls.transition_duration else 1)) := by
  have hA1 : arena_alloc ar sizeofAnimPose =
      (true, ⟨ar.capacity, ar.offset + sizeofAnimPose⟩) :=
    arena_alloc_true ar _ (by omega)
  have hev := evaluate_state_arena (layer_def.states.getD ls.current_state default)
    model params
    (advance_state_time ls.state_time dt
      (layer_def.states.getD ls.current_state default).speed
      (layer_def.states.getD ls.current_state default).looping
      (get_state_duration (layer_def.states.getD ls.current_state default) model params))
    ⟨ar.capacity, ar.offset + sizeofAnimPose⟩ zeroPose
  have hA2 : (arena_alloc (evaluate_state (layer_def.states.getD ls.current_state default)
      model params
      (advance_state_time ls.state_time dt
        (layer_def.states.getD ls.current_state default).speed
        (layer_def.states.getD ls.current_state default).looping
        (get_state_duration (layer_def.states.getD ls.current_state default) model params))
      ⟨ar.capacity, ar.offset + sizeofAnimPose⟩ zeroPose).2 sizeofAnimPose).1 = true := by
    have hle : (evaluate_state (layer_def.states.getD ls.current_state default)
        model params
        (advance_state_time ls.state_time dt
          (layer_def.states.getD ls.current_state default).speed
          (layer_def.states.getD ls.current_state default).looping
          (get_state_duration (layer_def.states.getD ls.current_state default) model params))
        ⟨ar.capacity, ar.offset + sizeofAnimPose⟩ zeroPose).2.offset + sizeofAnimPose ≤
        (evaluate_state (layer_def.states.getD ls.current_state default)
        model params
        (advance_state_time ls.state_time dt
          (layer_def.states.getD ls.current_state default).speed
          (layer_def.states.getD ls.current_state default).looping
          (get_state_duration (layer_def.states.getD ls.current_state default) model params))
        ⟨ar.capacity, ar.offset + sizeofAnimPose⟩ zeroPose).2.capacity := by
      rcases hev with ⟨hc, ho⟩
      dsimp only at hc ho
      omega
    unfold arena_alloc
    rw [if_pos hle]
  unfold anim_update_layer
  rw [if_neg hstates]
  simp only [htr, Bool.true_eq_false, if_false, ite_false, hA1, if_true, ite_true, hA2]
  refine ⟨?_, ?_, ?_⟩
  · split <;> split <;> rfl
  · split <;> split <;> rfl
  · split <;> split <;> rename_i hc <;>
      first
        | exact absurd le_rfl hc
        | simp [hc]

/-- Counterexample for C8: a transitioning layer state with
`transition_elapsed = 1/5` updated with the valid negative delta
`dt = -1/10` has its elapsed time decrease to `1/10` — the elapsed
time and the blend factor are not monotonically increasing over
arbitrary updates. -/
theorem C8_counterexample :
    ¬ ((1/5 : ℝ) ≤ (anim_update_layer layerR2 lsTransR paramsR0 modelR1
        (-1/10) false arenaBig).ls.transition_elapsed) := by
  have h : (anim_update_layer layerR2 lsTransR paramsR0 modelR1
      (-1/10) false arenaBig).ls.transition_elapsed = 1/10 := by
    norm_num [anim_update_layer, layerR2, lsTransR, paramsR0, modelR1, stateR1,
      get_state_duration, clip_duration_or_one, normalized_time, advance_state_time,
      fmodf, fTrunc, arena_alloc, sizeofAnimPose, evaluate_state, arenaBig]
  rw [h]
  norm_num

/-- Claim C8 (amended): after a transition has fired, every
`anim_graph_update` step with `dt ≥ 0` whose scratch allocations
succeed advances `transition_elapsed` by exactly `dt` (hence
non-decreasing), keeps the transition duration, keeps the clamped
crossfade blend factor within `[0, 1]` and non-decreasing, and clears
the transitioning flag exactly in the step in which the factor first
reaches 1 (negative `dt`, which the update accepts, breaks
monotonicity — see the counterexample). -/
theorem C8_crossfade_monotonic
    (layer_def : AnimLayerDef ℝ) (ls : AnimLayerState ℝ)
    (params : AnimParamValues ℝ) (model : SkinnedModel ℝ) (dt : ℝ) (cb : Bool)
    (ar : Arena)
    (hstates : ¬ layer_def.states.length = 0)
    (htr : ls.transitioning = true)
    (hdt : 0 ≤ dt)
    (hel : 0 ≤ ls.transition_elapsed)
    (hcap : ar.offset + 10 * sizeofAnimPose ≤ ar.capacity) :
    (anim_update_layer layer_def ls params model dt cb ar).ls.transition_elapsed
        = ls.transition_elapsed + dt ∧
    ls.transition_elapsed ≤
      (anim_update_layer layer_def ls params model dt cb ar).ls.transition_elapsed ∧
    (anim_update_layer layer_def ls params model dt cb ar).ls.transition_duration
        = ls.transition_duration ∧
    0 ≤ transition_blend_factor
      (anim_update_layer layer_def ls params model dt cb ar).ls.transition_elapsed
      (anim_update_layer layer_def ls params model dt cb ar).ls.transition_duration ∧
    transition_blend_factor
      (anim_update_layer layer_def ls params model dt cb ar).ls.transition_elapsed
      (anim_update_layer layer_def ls params model dt cb ar).ls.transition_duration ≤ 1 ∧
    transition_blend_factor ls.transition_elapsed ls.transition_duration ≤
      transition_blend_factor
        (anim_update_layer layer_def ls params model dt cb ar).ls.transition_elapsed
        (anim_update_layer layer_def ls params model dt cb ar).ls.transition_duration ∧
    ((anim_update_layer layer_def ls params model dt cb ar).ls.transitioning = false ↔
      transition_blend_factor (ls.transition_elapsed + dt) ls.transition_duration = 1) := by
  obtain ⟨he, hd, hflag⟩ :=
    anim_update_layer_crossfade_fields layer_def ls params model dt cb ar hstates htr hcap
  refine ⟨he, ?_, hd, ?_, ?_, ?_, ?_⟩
  · rw [he]
    linarith
  · rw [he, hd]
    exact transition_blend_factor_nonneg _ _ (by linarith)
  · rw [he, hd]
    exact transition_blend_factor_le_one _ _
  · rw [he, hd]
    exact transition_blend_factor_mono _ _ _ (by linarith)
  · rw [hflag, transition_blend_factor_eq_one_iff]

/-- Witness for C8 (amended): a concrete transitioning step over ℝ
with `dt = 1/10`, elapsed `1/5`, duration `2/5`. -/
theorem C8_crossfade_monotonic_witness :
    (¬ layerR2.states.length = 0 ∧ lsTransR.transitioning = true ∧
     (0 : ℝ) ≤ 1/10 ∧ (0 : ℝ) ≤ lsTransR.transition_elapsed ∧
     arenaBig.offset + 10 * sizeofAnimPose ≤ arenaBig.capacity) ∧
    (anim_update_layer layerR2 lsTransR paramsR0 modelR1 (1/10) false arenaBig).ls.transition_elapsed
        = lsTransR.transition_elapsed + 1/10 ∧
    ((anim_update_layer layerR2 lsTransR paramsR0 modelR1 (1/10) false arenaBig).ls.transitioning = false ↔
      transition_blend_factor (lsTransR.transition_elapsed + 1/10) lsTransR.transition_duration = 1) := by
  have h1 : ¬ layerR2.states.length = 0 := by norm_num [layerR2]
  have h2 : lsTransR.transitioning = true := rfl
  have h3 : (0 : ℝ) ≤ lsTransR.transition_elapsed := by norm_num [lsTransR]
  have h4 : arenaBig.offset + 10 * sizeofAnimPose ≤ arenaBig.capacity := by
    norm_num [arenaBig, sizeofAnimPose]
  have h := C8_crossfade_monotonic layerR2 lsTransR paramsR0 modelR1 (1/10) false
    arenaBig h1 h2 (by norm_num) h3 h4
  exact ⟨⟨h1, h2, by norm_num, h3, h4⟩, h.1, h.2.2.2.2.2.2⟩

/-- The skinning-matrix output of `animation_pose_to_matrices` below
the joint count does not depend on the previous content of the output
buffer (every such slot is overwritten, by the identity on scratch
failure and by the computed skinning matrix otherwise). -/
theorem animation_pose_to_matrices_indep (pose : AnimPose ℝ) (skel : Skeleton ℝ)
    (m1 m2 : ℕ → Mat4 ℝ) (ar : Arena) (j : ℕ) (hj : j < skel.joint_count) :
    (animation_pose_to_matrices pose skel m1 ar).1 j =
    (animation_pose_to_matrices pose skel m2 ar).1 j := by
  unfold animation_pose_to_matrices
  dsimp only
  split_ifs <;> simp [hj]

/-- Counterexample for C3: with a scratch arena of capacity 0 the very
first per-layer pose allocation fails and `anim_graph_update` returns
immediately — the instance (joint matrices and stored joint count
included) is completely untouched, so the update neither runs to
completion nor writes output for any joint. -/
theorem C3_counterexample :
    (anim_graph_update instR5 modelR1 (1/60) ⟨0, 0⟩).1 = instR5 ∧
    instR5.joint_count ≠ modelR1.skeleton.joint_count := by
  constructor
  · norm_num [anim_graph_update, alloc_layer_poses, arena_alloc, sizeofAnimPose,
      instR5, graphR0]
  · norm_num [instR5, modelR1, skelR1]

/-- Claim C3 (amended): when the initial per-layer pose allocations
succeed, `anim_graph_update` runs to completion — it stores the model
joint count and overwrites the output matrix of every joint below it
regardless of the previous buffer content (identity matrices when the
matrix scratch allocation fails) — and a scratch failure at the
current-state pose allocation degrades that layer to the rest pose
while the update continues.  When an initial per-layer allocation
fails, however, the update returns early with the instance unchanged
(see the counterexample). -/
theorem C3_update_degraded (inst : AnimGraphInstance ℝ) (model : SkinnedModel ℝ)
    (dt : ℝ) (scratch : Arena)
    (h : (alloc_layer_poses scratch inst.graph.layers.length).1 = true) :
    (anim_graph_update inst model dt scratch).1.joint_count = model.skeleton.joint_count ∧
    (∀ (M : ℕ → Mat4 ℝ) (j : ℕ), j < model.skeleton.joint_count →
      (anim_graph_update { inst with joint_matrices := M } model dt scratch).1.joint_matrices j =
      (anim_graph_update inst model dt scratch).1.joint_matrices j) ∧
    (∀ (layer_def : AnimLayerDef ℝ) (ls : AnimLayerState ℝ)
        (params : AnimParamValues ℝ) (dt2 : ℝ) (cb : Bool) (ar : Arena),
      ¬ layer_def.states.length = 0 →
      ar.capacity < ar.offset + sizeofAnimPose →
      (anim_update_layer layer_def ls params model dt2 cb ar).pose =
        pose_from_rest model.skeleton zeroPose) := by
  refine ⟨?_, ?_, ?_⟩
  · simp only [anim_graph_update, h, Bool.true_eq_false, if_false, ite_false]
    by_cases hz : inst.graph.layers.length = 0
    · rw [if_pos hz]
    · rw [if_neg hz]
  · intro M j hj
    simp only [anim_graph_update, h, Bool.true_eq_false, if_false, ite_false]
    by_cases hz : inst.graph.layers.length = 0
    · rw [if_pos hz, if_pos hz]
      exact animation_pose_to_matrices_indep _ _ _ _ _ _ hj
    · rw [if_neg hz, if_neg hz]
      exact animation_pose_to_matrices_indep _ _ _ _ _ _ hj
  · intro layer_def ls params dt2 cb ar hst hcap2
    have hfail : arena_alloc ar sizeofAnimPose = (false, ar) := by
      unfold arena_alloc
      rw [if_neg (by omega)]
    simp only [anim_update_layer, hst, hfail, if_false, ite_false]
    simp

/-- Witness for C3 (amended): a one-layer instance with a generous
arena (completion, joint count stored, output overwritten at joint 0)
and a separate per-layer step against a zero-capacity arena (rest-pose
fallback). -/
theorem C3_update_degraded_witness :
    (alloc_layer_poses arenaBig instR0.graph.layers.length).1 = true ∧
    (anim_graph_update instR0 modelR1 (1/60) arenaBig).1.joint_count =
      modelR1.skeleton.joint_count ∧
    (anim_graph_update { instR0 with joint_matrices := fun _ => 0 } modelR1
        (1/60) arenaBig).1.joint_matrices 0 =
      (anim_graph_update instR0 modelR1 (1/60) arenaBig).1.joint_matrices 0 ∧
    (anim_update_layer layerR2 lsTransR paramsR0 modelR1 1 false ⟨0, 0⟩).pose =
      pose_from_rest modelR1.skeleton zeroPose := by
  have h : (alloc_layer_poses arenaBig instR0.graph.layers.length).1 = true := by
    norm_num [alloc_layer_poses, arena_alloc, sizeofAnimPose, arenaBig, instR0, graphR0]
  have hc := C3_update_degraded instR0 modelR1 (1/60) arenaBig h
  refine ⟨h, hc.1, hc.2.1 (fun _ => 0) 0 (by norm_num [modelR1, skelR1]), ?_⟩
  exact hc.2.2 layerR2 lsTransR paramsR0 1 false ⟨0, 0⟩
    (by norm_num [layerR2]) (by norm_num [sizeofAnimPose])
